import Mathlib

/-!
Verification of the multimodal fusion and composite scoring engine of
InterviewInsight-AI, as a shallow embedding over the rationals.

Python floats are modelled by `ℚ` (exact arithmetic, no NaN); `math.exp` is
modelled as a fallible map: it raises `OverflowError` once its argument
exceeds the float overflow bound (`OVERFLOW_THRESHOLD`), and below the bound
its transcendental value is abstracted by a caller-supplied function
`e : ℚ → ℚ` over which every theorem quantifies, so the theorems hold for
every possible exponential; `round(x, n)` is modelled by round-half-even on
`ℚ` (`roundTo`); Python dicts whose key sets are fixed by the code are
modelled by structures, and emotion dictionaries by association lists in
insertion order.
-/

set_option maxRecDepth 10000

/-- Source: `_clamp(value, low, high)` of `score_calculator.py`,
`advanced_scoring.py` and `fairness.py` (identical one-liners):
`max(low, min(high, value))`. -/
def clamp (value low high : ℚ) : ℚ :=
  max low (min high value)

/-- Score range predicate used by the claims: a value lies in `[0, 100]`. -/
def inRange (x : ℚ) : Prop := 0 ≤ x ∧ x ≤ 100

instance (x : ℚ) : Decidable (inRange x) := by
  unfold inRange; infer_instance

/-- Round a rational to the nearest integer, ties to even: the idealisation of
Python's `round` (banker's rounding) on exact decimal values. -/
def roundHalfEven (q : ℚ) : ℤ :=
  if q - ⌊q⌋ < 1/2 then ⌊q⌋
  else if 1/2 < q - ⌊q⌋ then ⌊q⌋ + 1
  else if ⌊q⌋ % 2 = 0 then ⌊q⌋ else ⌊q⌋ + 1

/-- Python `round(q, p)`: round to `p` decimal places, ties to even. -/
def roundTo (p : ℕ) (q : ℚ) : ℚ :=
  ((roundHalfEven (q * (10 : ℚ) ^ p) : ℚ)) / (10 : ℚ) ^ p

/-- Python `statistics.mean` / the `_mean` helper of `multimodal_fusion.py`
(`sum/len`; the `_mean` helper returns `0.0` on an empty list, and every
`statistics.mean` call site is guarded by a non-emptiness check; in `ℚ`
division by zero is zero, which coincides with both). -/
def mean (xs : List ℚ) : ℚ :=
  xs.sum / (xs.length : ℚ)

/-- Python `statistics.pvariance`: population variance `Σ(x-m)²/n`. -/
def pvariance (xs : List ℚ) : ℚ :=
  (xs.map (fun x => (x - mean xs) ^ 2)).sum / (xs.length : ℚ)

/-- Python list slice `xs[-n:]`: the last `n` elements. -/
def takeLast (n : ℕ) (xs : List α) : List α :=
  xs.drop (xs.length - n)

/-- Distinct elements in first-occurrence order: the key set of a Python dict
built by iterated insertion. -/
def dedupFirst (xs : List String) : List String :=
  xs.foldl (fun acc g => if g ∈ acc then acc else acc ++ [g]) []

/-- Maximum of a list of rationals, first element as the base case
(Python `max` on a non-empty list); `0` on the empty list. -/
def maxD : List ℚ → ℚ
  | [] => 0
  | x :: xs => xs.foldl max x

/-- Minimum of a list of rationals (Python `min` on a non-empty list). -/
def minD : List ℚ → ℚ
  | [] => 0
  | x :: xs => xs.foldl min x

/-- Python `dict.get(key, 0.0)` on an emotion-score dictionary modelled as an
association list. -/
def lookupD (m : List (String × ℚ)) (k : String) : ℚ :=
  match m.find? (fun p => p.1 == k) with
  | some p => p.2
  | none => 0

/-- `max(counts.values())` for a multiset of strings: the largest multiplicity
occurring in the list (0 for the empty list). -/
def maxMultiplicity (gs : List String) : ℕ :=
  ((dedupFirst gs).map (fun g => gs.count g)).foldl max 0

/-- Python `max(keys, key=f)`: the first element of `keys` attaining the
maximal value of `f` (Python `max` keeps the earliest maximum). -/
def firstArgmax (keys : List String) (f : String → ℕ) : String :=
  match keys with
  | [] => "unknown"
  | k :: ks => ks.foldl (fun best x => if f best < f x then x else best) k

/-- Python `str.lower()` on the character data of a string (the library
`String.toLower` is implemented with an opaque loop, so the map over the
character list is spelled out). -/
def lowerStr (s : String) : String := String.mk (s.data.map Char.toLower)

/-! ## Data model (§3 of the spec, `multimodal_fusion.py` input/output shapes) -/

structure HeadPose where
  yaw : ℚ
  pitch : ℚ
  roll : ℚ
deriving DecidableEq, Repr

/-- One externally produced per-frame video feature record. -/
structure VideoFrame where
  timestamp : ℚ
  facial_emotion_scores : List (String × ℚ)
  head_pose : HeadPose
  gaze_direction : String
  eye_contact : ℚ
deriving DecidableEq, Repr

/-- One externally produced audio segment record (`"end"` key modelled as
`stop`, a legal Lean name). -/
structure AudioSegment where
  start : ℚ
  stop : ℚ
  pitch : ℚ
  pause_duration : ℚ
  speaking_rate : ℚ
  prosody_log_mel_std : ℚ
deriving DecidableEq, Repr

/-- One externally produced transcript segment record. -/
structure TextSegment where
  start : ℚ
  stop : ℚ
  semantic_relevance : ℚ
  sentiment_score : ℚ
  answer_coherence : ℚ
deriving DecidableEq, Repr

/-- Per-window speech aggregate produced by `_mean_speech`. -/
structure SpeechFeatures where
  pitch : ℚ
  pause_duration : ℚ
  speaking_rate : ℚ
  prosody_score : ℚ
deriving DecidableEq, Repr

/-- Per-window text aggregate produced by `_mean_text_scores`. -/
structure TextScores where
  semantic_relevance : ℚ
  sentiment_score : ℚ
  answer_coherence : ℚ
deriving DecidableEq, Repr

/-- A fused time window as appended to `fused_segments` in
`fuse_multimodal_features`. -/
structure FusedWindow where
  startTime : ℚ
  endTime : ℚ
  facialEmotionScores : List (String × ℚ)
  headPose : HeadPose
  gazeDirection : String
  speechFeatures : SpeechFeatures
  textScores : TextScores
  fusedVector : List ℚ
deriving DecidableEq, Repr

namespace MultimodalFusion

/-- Source: `_max_time` — `max([0.0] + timestamps + audio ends + text ends)`. -/
def max_time (v : List VideoFrame) (a : List AudioSegment) (t : List TextSegment) : ℚ :=
  maxD (((0 : ℚ) :: v.map (fun it => it.timestamp))
    ++ a.map (fun it => it.stop) ++ t.map (fun it => it.stop))

/-- Source: `_overlap` — strict interval overlap
`max(start_a, start_b) < min(end_a, end_b)`. -/
def overlap (start_a end_a start_b end_b : ℚ) : Bool :=
  decide (max start_a start_b < min end_a end_b)

/-- Video items selected for a window: `cursor <= timestamp < end_time`. -/
def video_slice (video : List VideoFrame) (cursor endT : ℚ) : List VideoFrame :=
  video.filter (fun it => decide (cursor ≤ it.timestamp) && decide (it.timestamp < endT))

/-- Audio items selected for a window by strict overlap. -/
def audio_slice (audio : List AudioSegment) (cursor endT : ℚ) : List AudioSegment :=
  audio.filter (fun it => overlap cursor endT it.start it.stop)

/-- Text items selected for a window by strict overlap. -/
def text_slice (text : List TextSegment) (cursor endT : ℚ) : List TextSegment :=
  text.filter (fun it => overlap cursor endT it.start it.stop)

/-- One step of the `totals[label] = totals.get(label, 0.0) + float(score)`
accumulation of `_mean_emotions` (insertion-ordered dict). -/
def accumPair (acc : List (String × ℚ)) (p : String × ℚ) : List (String × ℚ) :=
  if acc.any (fun q => q.1 == p.1) then
    acc.map (fun q => if q.1 == p.1 then (q.1, q.2 + p.2) else q)
  else acc ++ [p]

/-- Source: `_mean_emotions` — per-label arithmetic mean over the slice;
default `{"neutral": 1.0}` on an empty slice. -/
def mean_emotions (vsl : List VideoFrame) : List (String × ℚ) :=
  if vsl = [] then [(("neutral" : String), (1 : ℚ))]
  else
    (vsl.foldl (fun acc it => it.facial_emotion_scores.foldl accumPair acc) []).map
      (fun p => (p.1, p.2 / (vsl.length : ℚ)))

/-- Source: `_mean_head_pose` — component-wise mean, all-zero default. -/
def mean_head_pose (vsl : List VideoFrame) : HeadPose :=
  if vsl = [] then ⟨0, 0, 0⟩
  else
    ⟨mean (vsl.map (fun it => it.head_pose.yaw)),
     mean (vsl.map (fun it => it.head_pose.pitch)),
     mean (vsl.map (fun it => it.head_pose.roll))⟩

/-- Source: `_dominant_gaze` — mode of `gaze_direction` over the slice,
first-seen tie-break (Python `max(counts, key=counts.get)`); default
`"unknown"` on an empty slice. -/
def dominant_gaze (vsl : List VideoFrame) : String :=
  if vsl = [] then "unknown"
  else
    let gs := vsl.map (fun it => it.gaze_direction)
    firstArgmax (dedupFirst gs) (fun g => gs.count g)

/-- Source: `_mean_speech` — means of pitch, pause, rate, `log_mel_std`;
all-zero default on an empty slice. -/
def mean_speech (asl : List AudioSegment) : SpeechFeatures :=
  if asl = [] then ⟨0, 0, 0, 0⟩
  else
    ⟨mean (asl.map (fun it => it.pitch)),
     mean (asl.map (fun it => it.pause_duration)),
     mean (asl.map (fun it => it.speaking_rate)),
     mean (asl.map (fun it => it.prosody_log_mel_std))⟩

/-- Source: `_mean_text_scores` — means of the three text scores; all-zero
default on an empty slice. -/
def mean_text_scores (tsl : List TextSegment) : TextScores :=
  if tsl = [] then ⟨0, 0, 0⟩
  else
    ⟨mean (tsl.map (fun it => it.semantic_relevance)),
     mean (tsl.map (fun it => it.sentiment_score)),
     mean (tsl.map (fun it => it.answer_coherence))⟩

/-- The body of the `while cursor <= max_time` loop of
`fuse_multimodal_features`: the fused window built at a given cursor.
`use_learned_fusion` is `False` in every covered claim, so `_apply_fusion`
is the rounded identity (`round(value, 6)` per component). -/
def window_at (v : List VideoFrame) (a : List AudioSegment) (t : List TextSegment)
    (cursor w : ℚ) : FusedWindow :=
  let endT := cursor + w
  let vsl := video_slice v cursor endT
  let asl := audio_slice a cursor endT
  let tsl := text_slice t cursor endT
  let facial := mean_emotions vsl
  let sf := mean_speech asl
  let tsc := mean_text_scores tsl
  let gaze := dominant_gaze vsl
  let raw : List ℚ :=
    [lookupD facial ("happy"), lookupD facial ("neutral"), lookupD facial ("sad"),
     sf.speaking_rate, sf.pitch, sf.pause_duration,
     tsc.semantic_relevance, tsc.sentiment_score, tsc.answer_coherence,
     if gaze = ("center" : String) then 1 else 0]
  { startTime := roundTo 3 cursor
    endTime := roundTo 3 endT
    facialEmotionScores := facial
    headPose := mean_head_pose vsl
    gazeDirection := gaze
    speechFeatures := sf
    textScores := tsc
    fusedVector := raw.map (roundTo 6) }

/-- The window loop with explicit fuel (the Python loop terminates because the
window size is at least 0.5; the fuel passed by `fuse_multimodal_features`
is shown sufficient below). -/
def fuse_loop (v : List VideoFrame) (a : List AudioSegment) (t : List TextSegment)
    (w maxT : ℚ) : ℕ → ℚ → List FusedWindow
  | 0, _ => []
  | n + 1, cursor =>
    if cursor ≤ maxT then window_at v a t cursor w :: fuse_loop v a t w maxT n (cursor + w)
    else []

/-- Source: `fuse_multimodal_features` — window size clamped to at least 0.5,
cursor from 0 in steps of the window size while `cursor <= max_time`. This
models the `fused_segments` list (`fused_feature_vectors` in the returned
dict); the other entries of the returned dict are separate aggregations not
referenced by the claims about this function. -/
def fuse_multimodal_features (v : List VideoFrame) (a : List AudioSegment)
    (t : List TextSegment) (window_size_seconds : ℚ) : List FusedWindow :=
  let window_size := max 0.5 window_size_seconds
  let maxT := max_time v a t
  fuse_loop v a t window_size maxT (⌊maxT / window_size⌋.toNat + 1) 0

end MultimodalFusion

/-! ## Scorer input records (`score_calculator.py` / `advanced_scoring.py`).
Modelled as structures holding exactly the keys the scorers read
(`dict.get(key, 0.0)` on an absent key is the zero value of the field). -/

structure EngagementMetrics where
  overallEngagement : ℚ
  eyeContactRatio : ℚ
  avgHeadStability : ℚ
  avgSpeakingRateWpm : ℚ
deriving DecidableEq, Repr

structure SpeechQualityMetrics where
  averagePitch : ℚ
  averagePauseDuration : ℚ
  speakingRateWpm : ℚ
  prosodyScore : ℚ
deriving DecidableEq, Repr

/-- One emotion-trajectory point (`timeline_arrays["emotionTimeline"]` entry). -/
structure EmotionPoint where
  timestamp : ℚ
  dominantEmotion : String
  emotionScores : List (String × ℚ)
deriving DecidableEq, Repr

/-- One segment label; of its fields only `textRelevanceScore` is read by the
scorers and auditors modelled here. -/
structure SegmentLabel where
  textRelevanceScore : ℚ
deriving DecidableEq, Repr

/-- One `speechTimeline` entry; only its `pitch` is read by
`compute_speech_clarity_score`, and entries whose pitch is `None` are
filtered out there. -/
structure SpeechPoint where
  pitch : Option ℚ
deriving DecidableEq, Repr

/-- CPython float semantics: `math.exp(x)` raises `OverflowError` once its
result overflows a double, i.e. once `x` exceeds `log(DBL_MAX)`; the boundary
is idealized at 709.782712893384 (only inputs within one ulp of the boundary
depend on float rounding; every concrete input used below is far from it).
For `x` below the bound `math.exp` returns a finite float and never raises
(very negative arguments underflow to `0.0`, which is not an error). -/
def OVERFLOW_THRESHOLD : ℚ := 709.782712893384

namespace ScoringModels

/-- Source: `RegressionHead` of `scoring_models.py` (weights and bias). -/
structure RegressionHead where
  weights : List ℚ
  bias : ℚ
deriving Repr

/-- Source: `_sigmoid_to_100` — `1/(1+exp(-value))`, scaled to 100 and
clamped. `math.exp(-value)` raises `OverflowError` when `-value` exceeds the
float overflow bound, modelled by the `none` branch; below the bound its
finite value is abstracted by `e`, so every theorem quantifying over `e`
holds for the true exponential. -/
def sigmoid_to_100 (e : ℚ → ℚ) (value : ℚ) : Option ℚ :=
  if OVERFLOW_THRESHOLD < -value then none
  else some (max 0 (min 100 ((1 / (1 + e (-value))) * 100)))

/-- Source: `RegressionHead.predict` — 50 on an empty feature list, else the
sigmoid of bias plus the dot product over the common prefix
(`limit = min(len(features), len(weights))`); `none` when the sigmoid's
exponential overflows. -/
def RegressionHead.predict (e : ℚ → ℚ) (h : RegressionHead) (features : List ℚ) :
    Option ℚ :=
  if features = [] then some 50
  else sigmoid_to_100 e (h.bias + ((h.weights.zip features).map (fun p => p.1 * p.2)).sum)

/-- The exact condition under which `RegressionHead.predict` raises: a
non-empty feature list whose linear score drives `math.exp` past the
overflow bound. -/
def RegressionHead.overflows (h : RegressionHead) (features : List ℚ) : Prop :=
  features ≠ [] ∧ OVERFLOW_THRESHOLD <
    -(h.bias + ((h.weights.zip features).map (fun p => p.1 * p.2)).sum)

/-- Source: `_pool_fused_vectors` — drop empty vectors, zero-pad to the max
length, column-wise mean, then zero-pad/truncate to length 10. -/
def pool_fused_vectors (fused : List FusedWindow) : List ℚ :=
  if fused = [] then List.replicate 10 0
  else
    let vectors := (fused.map (fun it => it.fusedVector)).filter (fun v => v ≠ [])
    if vectors = [] then List.replicate 10 0
    else
      let len := (vectors.map (fun v => v.length)).foldl max 0
      let pooled := (List.range len).map
        (fun j => (vectors.map (fun v => v.getD j 0)).sum / (vectors.length : ℚ))
      (pooled ++ List.replicate (10 - len) 0).take 10

/-- The three fixed heads of `InterviewReadinessModel.__init__`. -/
def confidence_head : RegressionHead :=
  ⟨[0.45, 0.32, -0.3, 0.004, 0.001, -0.25, 0.28, 0.35, 0.24, 0.42], -0.15⟩

def communication_head : RegressionHead :=
  ⟨[0.28, 0.22, -0.18, 0.005, 0.0006, -0.2, 0.55, 0.26, 0.5, 0.25], -0.12⟩

def readiness_head : RegressionHead :=
  ⟨[0.3, 0.25, -0.22, 0.004, 0.0008, -0.18, 0.4, 0.22, 0.4, 0.35], -0.1⟩

structure ReadinessPredictions where
  confidence : ℚ
  communicationEffectiveness : ℚ
  interviewReadiness : ℚ
deriving DecidableEq, Repr

/-- Source: `InterviewReadinessModel.predict` — the three heads on the pooled
feature vector, rounded to 2 decimals; an `OverflowError` in any head
propagates (`none`). -/
def readiness_predict (e : ℚ → ℚ) (fused : List FusedWindow) :
    Option ReadinessPredictions :=
  let pooled := pool_fused_vectors fused
  match confidence_head.predict e pooled, communication_head.predict e pooled,
      readiness_head.predict e pooled with
  | some confidence, some communication, some readiness =>
    some ⟨roundTo 2 confidence, roundTo 2 communication, roundTo 2 readiness⟩
  | _, _, _ => none

end ScoringModels

namespace Rubric

/-- Source: `RubricLevel` dataclass of `rubric.py`. -/
structure RubricLevel where
  min_score : ℚ
  label : String
  descriptor : String
deriving DecidableEq, Repr

/-- Fallback level for the (unreachable) `levels[-1]` on an empty list. -/
def defaultLevel : RubricLevel := ⟨0, "", ""⟩

/-- Source: `RUBRIC_DIMENSIONS["communication"]["levels"]`. -/
def communication_levels : List RubricLevel :=
  [⟨85, "Excellent",
    "Communicates ideas with clear structure, concise language, and strong audience alignment."⟩,
   ⟨70, "Good",
    "Communicates clearly with minor pacing or structure gaps that do not block understanding."⟩,
   ⟨0, "Needs Improvement",
    "Communication is inconsistent; pacing, clarity, or structure frequently reduce impact."⟩]

/-- Source: `RUBRIC_DIMENSIONS["technical_clarity"]["levels"]`. -/
def technical_clarity_levels : List RubricLevel :=
  [⟨85, "Excellent",
    "Explains technical concepts accurately with strong depth, tradeoffs, and measurable outcomes."⟩,
   ⟨70, "Good",
    "Technical explanations are mostly correct with moderate depth and occasional missing details."⟩,
   ⟨0, "Needs Improvement",
    "Technical explanations are shallow or ambiguous; key reasoning and validation are missing."⟩]

/-- Source: `RUBRIC_DIMENSIONS["behavioral_response"]["levels"]`. -/
def behavioral_response_levels : List RubricLevel :=
  [⟨85, "Excellent",
    "Behavioral examples are specific, reflective, and outcome-focused with clear ownership."⟩,
   ⟨70, "Good",
    "Behavioral responses are relevant and understandable but can improve in specificity or impact."⟩,
   ⟨0, "Needs Improvement",
    "Behavioral responses are generic, lack clear structure, or miss tangible outcomes."⟩]

/-- Source: `RUBRIC_DIMENSIONS["engagement"]["levels"]`. -/
def engagement_levels : List RubricLevel :=
  [⟨85, "Excellent",
    "Maintains strong engagement throughout with stable eye contact and controlled non-verbal cues."⟩,
   ⟨70, "Good",
    "Shows consistent engagement with minor non-verbal variability."⟩,
   ⟨0, "Needs Improvement",
    "Engagement fluctuates; off-screen gaze or unstable non-verbal cues reduce interviewer connection."⟩]

/-- Source: `score_to_level` — clamp the score to `[0,100]` and return the
first level whose `min_score` it reaches, else the last level. -/
def score_to_level (score : ℚ) (levels : List RubricLevel) : RubricLevel :=
  match levels.find? (fun level => decide (level.min_score ≤ clamp score 0 100)) with
  | some level => level
  | none => levels.getLastD defaultLevel

/-- Source: `_resolve_dimension_score` — first non-`None` of
primary/fallback/default, clamped to `[0,100]` (every value is a float, so
the `try/except` never skips). -/
def resolve_dimension_score (primary fallback : Option ℚ) (dflt : ℚ) : ℚ :=
  match primary with
  | some v => clamp v 0 100
  | none =>
    match fallback with
    | some v => clamp v 0 100
    | none => clamp dflt 0 100

structure RubricEntry where
  score : ℚ
  level : String
  descriptor : String
deriving DecidableEq, Repr

structure RubricEvaluation where
  communication : RubricEntry
  technical_clarity : RubricEntry
  behavioral_response : RubricEntry
  engagement : RubricEntry
deriving DecidableEq, Repr

end Rubric

namespace ScoreCalculator

/-- The eight values of the `summaryScores` dict of `compute_session_scores`. -/
structure SummaryScores where
  engagementScore : ℚ
  confidenceScore : ℚ
  speechFluency : ℚ
  emotionalStability : ℚ
  contentRelevanceScore : ℚ
  overallPerformanceScore : ℚ
  communicationEffectiveness : ℚ
  interviewReadiness : ℚ
deriving DecidableEq, Repr

/-- Source: `_normalize_percent` of `score_calculator.py`. -/
def normalize_percent (value : ℚ) : ℚ :=
  if value ≤ 1 then clamp (value * 100) 0 100
  else clamp value 0 100

/-- Source: `compute_engagement_score` — weighted blend of normalized eye
contact, gaze stability (default 40 with no windows) and a head-motion score
(default mean motion 20 with no windows); returns the clamped score and the
rounded component breakdown. -/
def compute_engagement_score (engagement_metrics : EngagementMetrics)
    (fused_feature_vectors : List FusedWindow) : ℚ × ℚ × ℚ × ℚ :=
  let eye_contact_score := normalize_percent engagement_metrics.eyeContactRatio
  let gazes := fused_feature_vectors.map (fun it => lowerStr it.gazeDirection)
  let gaze_stability :=
    if gazes ≠ [] then
      let dominant_ratio := (maxMultiplicity gazes : ℚ) / (gazes.length : ℚ)
      let center_ratio := (gazes.count ("center") : ℚ) / (gazes.length : ℚ)
      ((dominant_ratio * 0.5) + (center_ratio * 0.5)) * 100
    else (40 : ℚ)
  let head_motion_values := fused_feature_vectors.map
    (fun it => |it.headPose.yaw| + |it.headPose.pitch| + |it.headPose.roll|)
  let avg_head_motion := if head_motion_values ≠ [] then mean head_motion_values else (20 : ℚ)
  let head_motion_score := clamp (100 - avg_head_motion * 1.5) 0 100
  let score := eye_contact_score * 0.4 + gaze_stability * 0.35 + head_motion_score * 0.25
  (clamp score 0 100, roundTo 2 eye_contact_score, roundTo 2 gaze_stability,
    roundTo 2 head_motion_score)

/-- Dominant-emotion series of `compute_emotional_regulation_score`: for each
point with a non-empty score dict, the maximal score value. -/
def dominant_scores (emotion_trajectory : List EmotionPoint) : List ℚ :=
  emotion_trajectory.filterMap (fun point =>
    if point.emotionScores = [] then none
    else some (maxD (point.emotionScores.map (fun p => p.2))))

/-- Labels occurring in a trajectory, in first-occurrence order (Python
`defaultdict` key order of `per_label_series`). -/
def trajectory_labels (emotion_trajectory : List EmotionPoint) : List String :=
  dedupFirst (emotion_trajectory.foldl
    (fun acc point =>
      if point.emotionScores = [] then acc
      else acc ++ point.emotionScores.map (fun p => p.1)) [])

/-- The per-label value series of `compute_emotional_regulation_score`. -/
def label_series (emotion_trajectory : List EmotionPoint) (label : String) : List ℚ :=
  emotion_trajectory.foldl
    (fun acc point =>
      if point.emotionScores = [] then acc
      else acc ++ (point.emotionScores.filter (fun p => p.1 == label)).map (fun p => p.2)) []

/-- Source: `compute_emotional_regulation_score` — 50 on an empty trajectory;
otherwise `clamp(100 - min(100, 280·dominantVar + 220·avgLabelVar), 0, 100)`
where `dominantVar` is the population variance of the dominant-emotion series
(0 with fewer than 2 entries) and `avgLabelVar` the mean of the population
variances of the per-label series having at least 2 entries (0 if none). -/
def compute_emotional_regulation_score (emotion_trajectory : List EmotionPoint) : ℚ :=
  if emotion_trajectory = [] then 50
  else
    let doms := dominant_scores emotion_trajectory
    let dominant_var := if 1 < doms.length then pvariance doms else 0
    let label_vars :=
      (((trajectory_labels emotion_trajectory).map
        (label_series emotion_trajectory)).filter (fun s => 1 < s.length)).map pvariance
    let avg_label_var := if label_vars ≠ [] then mean label_vars else 0
    let variance_penalty := min 100 (dominant_var * 280 + avg_label_var * 220)
    clamp (100 - variance_penalty) 0 100

/-- Source: `compute_speech_clarity_score` — weighted blend of a pause score,
a speaking-rate score centred at 135 wpm and a pitch-variance score over the
speech timeline. -/
def compute_speech_clarity_score (speech_quality_metrics : SpeechQualityMetrics)
    (speech_timeline : List SpeechPoint) : ℚ :=
  let avg_pause := speech_quality_metrics.averagePauseDuration
  let speaking_rate := speech_quality_metrics.speakingRateWpm
  let pause_score := clamp (100 - avg_pause * 65) 0 100
  let speaking_rate_score := clamp (100 - (|speaking_rate - 135| / 135) * 100) 0 100
  let pitch_values := speech_timeline.filterMap (fun it => it.pitch)
  let pitch_variance := if 1 < pitch_values.length then pvariance pitch_values else 0
  let pitch_variance_score := clamp (100 - pitch_variance / 9) 0 100
  clamp (pause_score * 0.35 + speaking_rate_score * 0.45 + pitch_variance_score * 0.2) 0 100

/-- Source: `compute_content_relevance_score` — mean segment relevance when
labels exist, else mean `semantic_relevance * 100` over the fused windows
(0 when both are empty), clamped. -/
def compute_content_relevance_score (segment_labels : List SegmentLabel)
    (fused_feature_vectors : List FusedWindow) : ℚ :=
  if segment_labels ≠ [] then
    let values := segment_labels.map (fun it => it.textRelevanceScore)
    clamp (if values ≠ [] then mean values else 0) 0 100
  else
    let semantic_values := fused_feature_vectors.map
      (fun it => it.textScores.semantic_relevance * 100)
    clamp (if semantic_values ≠ [] then mean semantic_values else 0) 0 100

/-- Source: `compute_overall_performance_score` — fixed weighted blend. -/
def compute_overall_performance_score (engagement_score emotional_regulation_score
    speech_clarity_score content_relevance_score : ℚ) : ℚ :=
  clamp (engagement_score * 0.3 + emotional_regulation_score * 0.2
    + speech_clarity_score * 0.25 + content_relevance_score * 0.25) 0 100

/-- Source: `map_scores_to_rubric` as called by `compute_session_scores`
(`advanced_scores` defaulting to the empty dict, so every advanced lookup is
`None`). -/
def map_scores_to_rubric (summary : SummaryScores) : Rubric.RubricEvaluation :=
  let communication_score := Rubric.resolve_dimension_score
    (some summary.communicationEffectiveness) none summary.speechFluency
  let technical_clarity_score := Rubric.resolve_dimension_score
    none (some summary.contentRelevanceScore) summary.speechFluency
  let behavioral_response_score := Rubric.resolve_dimension_score
    (some summary.overallPerformanceScore) none summary.emotionalStability
  let engagement_score := Rubric.resolve_dimension_score
    (some summary.engagementScore) none 50
  let entry := fun (score : ℚ) (levels : List Rubric.RubricLevel) =>
    let level := Rubric.score_to_level score levels
    Rubric.RubricEntry.mk (roundTo 2 score) level.label level.descriptor
  { communication := entry communication_score Rubric.communication_levels
    technical_clarity := entry technical_clarity_score Rubric.technical_clarity_levels
    behavioral_response := entry behavioral_response_score Rubric.behavioral_response_levels
    engagement := entry engagement_score Rubric.engagement_levels }

/-- Source: `compute_session_scores` — the `summaryScores` bundle (the
`detailedScores` block only repeats the component values) together with the
rubric evaluation. `e` abstracts the finite values of `math.exp` for the
readiness heads; an `OverflowError` raised inside the readiness ensemble
propagates out of the function (`none`) — the rule-based components computed
before it are total. -/
def compute_session_scores (e : ℚ → ℚ) (engagement_metrics : EngagementMetrics)
    (emotion_trajectory : List EmotionPoint)
    (speech_quality_metrics : SpeechQualityMetrics)
    (segment_labels : List SegmentLabel)
    (fused_feature_vectors : List FusedWindow)
    (speech_timeline : List SpeechPoint) :
    Option (SummaryScores × Rubric.RubricEvaluation) :=
  let engagement_score := (compute_engagement_score engagement_metrics fused_feature_vectors).1
  let emotional_regulation_score := compute_emotional_regulation_score emotion_trajectory
  let speech_clarity_score :=
    compute_speech_clarity_score speech_quality_metrics speech_timeline
  let content_relevance_score :=
    compute_content_relevance_score segment_labels fused_feature_vectors
  let overall_score := compute_overall_performance_score engagement_score
    emotional_regulation_score speech_clarity_score content_relevance_score
  match ScoringModels.readiness_predict e fused_feature_vectors with
  | none => none
  | some model_predictions =>
    let summary : SummaryScores :=
      { engagementScore := roundTo 2 engagement_score
        confidenceScore := roundTo 2 model_predictions.confidence
        speechFluency := roundTo 2 speech_clarity_score
        emotionalStability := roundTo 2 emotional_regulation_score
        contentRelevanceScore := roundTo 2 content_relevance_score
        overallPerformanceScore := roundTo 2 overall_score
        communicationEffectiveness := roundTo 2 model_predictions.communicationEffectiveness
        interviewReadiness := roundTo 2 model_predictions.interviewReadiness }
    some (summary, map_scores_to_rubric summary)

end ScoreCalculator

namespace AdvancedScoring

/-- Source: `TrainableRegressionHead` of `advanced_scoring.py`. -/
structure TrainableRegressionHead where
  weights : List ℚ
  bias : ℚ
deriving Repr

/-- Source: `_sigmoid_to_100` of `advanced_scoring.py` (identical to the
`scoring_models.py` helper); `math.exp(-value)` raises `OverflowError` past
the float overflow bound (`none`), below it its finite value is abstracted
by `e`. -/
def sigmoid_to_100 (e : ℚ → ℚ) (value : ℚ) : Option ℚ :=
  if OVERFLOW_THRESHOLD < -value then none
  else some (clamp ((1 / (1 + e (-value))) * 100) 0 100)

/-- Source: `TrainableRegressionHead.predict` — 50 on an empty feature list,
else the sigmoid of bias plus the dot product over the common prefix; `none`
when the sigmoid's exponential overflows. -/
def TrainableRegressionHead.predict (e : ℚ → ℚ) (h : TrainableRegressionHead)
    (features : List ℚ) : Option ℚ :=
  if features = [] then some 50
  else sigmoid_to_100 e (h.bias + ((h.weights.zip features).map (fun p => p.1 * p.2)).sum)

/-- The exact condition under which `TrainableRegressionHead.predict` raises. -/
def TrainableRegressionHead.overflows (h : TrainableRegressionHead)
    (features : List ℚ) : Prop :=
  features ≠ [] ∧ OVERFLOW_THRESHOLD <
    -(h.bias + ((h.weights.zip features).map (fun p => p.1 * p.2)).sum)

/-- Source: `_normalize_percent` of `advanced_scoring.py` (textually identical
to the `score_calculator.py` helper). -/
def normalize_percent (value : ℚ) : ℚ :=
  if value ≤ 1 then clamp (value * 100) 0 100
  else clamp value 0 100

/-- Source: `_build_vision_embedding` — `[eyeContact, overallEngagement,
centerRatio, headStability]` (centre ratio defaults to 0.5 and mean head
motion to 10 with no windows). -/
def build_vision_embedding (engagement_metrics : EngagementMetrics)
    (fused_feature_vectors : List FusedWindow) : List ℚ :=
  let eye_contact := normalize_percent engagement_metrics.eyeContactRatio / 100
  let overall_engagement := normalize_percent engagement_metrics.overallEngagement / 100
  let gazes := fused_feature_vectors.map (fun it => lowerStr it.gazeDirection)
  let center_ratio :=
    if gazes ≠ [] then (gazes.count ("center") : ℚ) / (gazes.length : ℚ) else 0.5
  let head_motions := fused_feature_vectors.map
    (fun it => |it.headPose.yaw| + |it.headPose.pitch| + |it.headPose.roll|)
  let head_motion_mean := if head_motions ≠ [] then mean head_motions else 10
  let head_stability := clamp (1 - head_motion_mean / 30) 0 1
  [eye_contact, overall_engagement, center_ratio, head_stability]

/-- Source: `_build_audio_embedding` — `[rateNorm, pauseControl, prosodyNorm,
pitchStability]`. Fused-window speech features always carry a numeric pitch
(the fusion layer writes one), so the `is not None` filter keeps every
entry. -/
def build_audio_embedding (speech_quality_metrics : SpeechQualityMetrics)
    (fused_feature_vectors : List FusedWindow) : List ℚ :=
  let speaking_rate := speech_quality_metrics.speakingRateWpm
  let pause_duration := speech_quality_metrics.averagePauseDuration
  let prosody_score := speech_quality_metrics.prosodyScore
  let speaking_rate_norm := clamp (1 - |speaking_rate - 135| / 135) 0 1
  let pause_control := clamp (1 - pause_duration / 1.4) 0 1
  let prosody_norm := clamp prosody_score 0 1
  let pitch_values := fused_feature_vectors.map (fun it => it.speechFeatures.pitch)
  let pitch_var := if 1 < pitch_values.length then pvariance pitch_values else 0
  let pitch_stability := clamp (1 - pitch_var / 220) 0 1
  [speaking_rate_norm, pause_control, prosody_norm, pitch_stability]

/-- Source: `_build_text_embedding` — `[relevanceNorm, semanticNorm,
coherenceNorm, sentimentNorm]`. -/
def build_text_embedding (segment_labels : List SegmentLabel)
    (fused_feature_vectors : List FusedWindow) : List ℚ :=
  let segment_relevance := segment_labels.map (fun it => it.textRelevanceScore)
  let relevance_norm := if segment_relevance ≠ [] then mean segment_relevance / 100 else 0
  let semantic := fused_feature_vectors.map (fun it => it.textScores.semantic_relevance)
  let coherence := fused_feature_vectors.map (fun it => it.textScores.answer_coherence)
  let sentiment := fused_feature_vectors.map (fun it => it.textScores.sentiment_score)
  let semantic_norm := if semantic ≠ [] then mean semantic else 0
  let coherence_norm := if coherence ≠ [] then mean coherence else 0
  let sentiment_mean := if sentiment ≠ [] then mean sentiment else 0
  let sentiment_norm := clamp ((sentiment_mean + 1) / 2) 0 1
  [relevance_norm, semantic_norm, coherence_norm, sentiment_norm]

/-- The four fixed heads of `AdvancedMultimodalScorer.__init__`. -/
def engagement_head : TrainableRegressionHead :=
  ⟨[0.9, 0.65, 0.55, 0.25, 0.15, 0.18, 0.08, 0.12, 0.2, 0.15, 0.2, 0.18], -0.72⟩

def communication_head : TrainableRegressionHead :=
  ⟨[0.22, 0.18, 0.2, 0.08, 0.68, 0.75, 0.42, 0.66, 0.3, 0.34, 0.2, 0.24], -0.78⟩

def comprehension_head : TrainableRegressionHead :=
  ⟨[0.18, 0.2, 0.12, 0.06, 0.2, 0.28, 0.16, 0.14, 0.74, 0.62, 0.5, 0.7], -0.8⟩

def overall_head : TrainableRegressionHead :=
  ⟨[0.36, 0.3, 0.26, 0.12, 0.34, 0.36, 0.24, 0.3, 0.42, 0.38, 0.31, 0.36], -0.84⟩

/-- The four advanced scores of `AdvancedMultimodalScorer.predict`. -/
structure AdvancedScores where
  engagement : ℚ
  communicationClarity : ℚ
  interviewComprehension : ℚ
  overallPerformance : ℚ
deriving DecidableEq, Repr

/-- Source: the `torch is None` branch of `_transformer_predict` — the
deterministic linear fallback over the three embeddings. -/
def transformer_predict_fallback (vision_embedding audio_embedding
    text_embedding : List ℚ) : AdvancedScores :=
  { engagement := clamp (vision_embedding.getD 0 0 * 65 + vision_embedding.getD 1 0 * 35) 0 100
    communicationClarity :=
      clamp (audio_embedding.getD 0 0 * 50 + audio_embedding.getD 1 0 * 50) 0 100
    interviewComprehension :=
      clamp (text_embedding.getD 0 0 * 65 + text_embedding.getD 1 0 * 35) 0 100
    overallPerformance :=
      clamp (((vision_embedding.getD 0 0 + audio_embedding.getD 0 0
        + text_embedding.getD 0 0) / 3) * 100) 0 100 }

/-- Source: `AdvancedMultimodalScorer.predict`. `tp` abstracts
`_transformer_predict` (the seeded torch encoder when available, the
deterministic `transformer_predict_fallback` otherwise, neither of which
raises), so theorems quantifying over `tp` cover both paths. An
`OverflowError` in any of the four regression heads propagates (`none`).
The `diagnostics` block of the returned dict is reporting-only and not
modelled. -/
def predict (e : ℚ → ℚ) (tp : List ℚ → List ℚ → List ℚ → AdvancedScores)
    (engagement_metrics : EngagementMetrics)
    (speech_quality_metrics : SpeechQualityMetrics)
    (segment_labels : List SegmentLabel)
    (fused_feature_vectors : List FusedWindow) : Option AdvancedScores :=
  let vision_embedding := build_vision_embedding engagement_metrics fused_feature_vectors
  let audio_embedding := build_audio_embedding speech_quality_metrics fused_feature_vectors
  let text_embedding := build_text_embedding segment_labels fused_feature_vectors
  let combined_features := vision_embedding ++ audio_embedding ++ text_embedding
  match engagement_head.predict e combined_features,
      communication_head.predict e combined_features,
      comprehension_head.predict e combined_features,
      overall_head.predict e combined_features with
  | some r_eng, some r_comm, some r_compr, some r_over =>
    let transformer_scores := tp vision_embedding audio_embedding text_embedding
    some
      { engagement :=
          roundTo 2 (clamp (0.45 * r_eng + 0.55 * transformer_scores.engagement) 0 100),
        communicationClarity :=
          roundTo 2 (clamp (0.45 * r_comm
            + 0.55 * transformer_scores.communicationClarity) 0 100),
        interviewComprehension :=
          roundTo 2 (clamp (0.45 * r_compr
            + 0.55 * transformer_scores.interviewComprehension) 0 100),
        overallPerformance :=
          roundTo 2 (clamp (0.45 * r_over
            + 0.55 * transformer_scores.overallPerformance) 0 100) }
  | _, _, _, _ => none

end AdvancedScoring

namespace Fairness

/-- Source: `_average_relevance` — mean `textRelevanceScore`, 0 if empty. -/
def average_relevance (segment_labels : List SegmentLabel) : ℚ :=
  if segment_labels = [] then 0
  else mean (segment_labels.map (fun it => it.textRelevanceScore))

/-- Source: `_band_eye_contact` — ratio rescaled to percent when at most 1,
then 75/45 thresholds. -/
def band_eye_contact (eye_contact : ℚ) : String :=
  let value := if eye_contact ≤ 1 then eye_contact * 100 else eye_contact
  if 75 ≤ value then "high_eye_contact"
  else if 45 ≤ value then "medium_eye_contact"
  else "low_eye_contact"

/-- Source: `_band_speaking_rate` — `unknown_rate` for non-positive rates,
then 110/160 thresholds. -/
def band_speaking_rate (rate : ℚ) : String :=
  if rate ≤ 0 then "unknown_rate"
  else if rate < 110 then "slow_rate"
  else if rate ≤ 160 then "optimal_rate"
  else "fast_rate"

/-- Source: `_band_pause` — 0/0.5/1.0 thresholds. -/
def band_pause (pause : ℚ) : String :=
  if pause ≤ 0 then "minimal_pause"
  else if pause < 0.5 then "short_pause"
  else if pause < 1 then "moderate_pause"
  else "long_pause"

/-- Source: `_band_relevance` — 80/60 thresholds. -/
def band_relevance (relevance : ℚ) : String :=
  if 80 ≤ relevance then "high_relevance"
  else if 60 ≤ relevance then "medium_relevance"
  else "low_relevance"

/-- The four core scores passed to `NeutralFeatureFairnessAnalyzer.analyze`. -/
structure CoreScores where
  engagement : ℚ
  communicationClarity : ℚ
  interviewComprehension : ℚ
  overallPerformance : ℚ
deriving DecidableEq, Repr

/-- One retained history sample of the neutral-feature analyzer: the four band
assignments and the four clamped scores. -/
structure FSample where
  eyeContactBand : String
  speakingRateBand : String
  pauseBand : String
  contentRelevanceBand : String
  engagement : ℚ
  communicationClarity : ℚ
  interviewComprehension : ℚ
  overallPerformance : ℚ
deriving DecidableEq, Repr

/-- The caller-visible inputs of one `analyze` call (the session id only feeds
log output and the stored sample field, which no computation reads). -/
structure FInput where
  core_scores : CoreScores
  engagement_metrics : EngagementMetrics
  speech_quality_metrics : SpeechQualityMetrics
  segment_labels : List SegmentLabel
deriving Repr

instance : Inhabited FInput :=
  ⟨⟨⟨0, 0, 0, 0⟩, ⟨0, 0, 0, 0⟩, ⟨0, 0, 0, 0⟩, []⟩⟩

/-- The `feature_groups` / `scores` construction of `analyze`. -/
def mkSample (inp : FInput) : FSample :=
  { eyeContactBand := band_eye_contact inp.engagement_metrics.eyeContactRatio
    speakingRateBand := band_speaking_rate inp.speech_quality_metrics.speakingRateWpm
    pauseBand := band_pause inp.speech_quality_metrics.averagePauseDuration
    contentRelevanceBand := band_relevance (average_relevance inp.segment_labels)
    engagement := clamp inp.core_scores.engagement 0 100
    communicationClarity := clamp inp.core_scores.communicationClarity 0 100
    interviewComprehension := clamp inp.core_scores.interviewComprehension 0 100
    overallPerformance := clamp inp.core_scores.overallPerformance 0 100 }

/-- `feature_groups` iteration order (Python dict insertion order). -/
def groupKeys : List String :=
  ["eyeContactBand", "speakingRateBand", "pauseBand", "contentRelevanceBand"]

/-- `scores` iteration order (Python dict insertion order). -/
def scoreKeys : List String :=
  ["engagement", "communicationClarity", "interviewComprehension", "overallPerformance"]

/-- `row["groups"].get(group_key, "unknown")` on a history row. -/
def bandGet (group_key : String) (row : FSample) : String :=
  if group_key = ("eyeContactBand" : String) then row.eyeContactBand
  else if group_key = ("speakingRateBand" : String) then row.speakingRateBand
  else if group_key = ("pauseBand" : String) then row.pauseBand
  else if group_key = ("contentRelevanceBand" : String) then row.contentRelevanceBand
  else "unknown"

/-- `row["scores"][score_name]` on a history row (every row carries all four
score keys). -/
def scoreGet (score_name : String) (row : FSample) : ℚ :=
  if score_name = ("engagement" : String) then row.engagement
  else if score_name = ("communicationClarity" : String) then row.communicationClarity
  else if score_name = ("interviewComprehension" : String) then row.interviewComprehension
  else row.overallPerformance

/-- The distinct buckets of a band over the retained history (keys of
`grouped_values`, first-occurrence order). -/
def buckets (history : List FSample) (group_key : String) : List String :=
  dedupFirst (history.map (bandGet group_key))

/-- Per-bucket means of one score over the retained history (the `means` dict
of `analyze`; every bucket present in the history has at least one row, so
the `if values[score_name]` guard drops nothing). -/
def bucketMeans (history : List FSample) (group_key score_name : String) : List ℚ :=
  (buckets history group_key).map (fun bucket =>
    mean ((history.filter (fun row => bandGet group_key row == bucket)).map
      (scoreGet score_name)))

/-- `max(means.values()) - min(means.values())` (0 when the means dict is
empty). -/
def spread (history : List FSample) (group_key score_name : String) : ℚ :=
  let ms := bucketMeans history group_key score_name
  if ms = [] then 0 else maxD ms - minD ms

/-- The warning condition of `analyze` for one `(band, score)` pair. -/
def warnCond (history : List FSample) (group_key score_name : String) : Bool :=
  decide (2 ≤ (buckets history group_key).length)
    && decide ((18 : ℚ) < spread history group_key score_name)
    && decide (15 ≤ history.length)

/-- The warning loop of `analyze` over a retained history: one warning per
`(band, score)` pair meeting the spread condition, bands outer, scores inner
(warnings modelled as the identifying pair; the source formats them into a
message string). -/
def analyzeWarnings (h : List FSample) : List (String × String) :=
  groupKeys.flatMap (fun g =>
    (scoreKeys.filter (fun s => warnCond h g s)).map (fun s => (g, s)))

/-- Source: `NeutralFeatureFairnessAnalyzer.analyze` — append the sample, keep
the last 1000, then emit the warnings over the retained history. Returns the
new history and the warnings. -/
def analyze (history : List FSample) (inp : FInput) :
    List FSample × List (String × String) :=
  let h := takeLast 1000 (history ++ [mkSample inp])
  (h, analyzeWarnings h)

/-- Fold of `analyze` over a call sequence starting from a given history. -/
def runAnalyzer (history : List FSample) (calls : List FInput) : List FSample :=
  calls.foldl (fun h inp => (analyze h inp).1) history

/-- The warning list produced by the `(i+1)`-st call of a call sequence: the
warnings of `analyze` run on the history accumulated over the first `i`
calls. -/
def runWarnings (history : List FSample) (calls : List FInput) :
    List (List (String × String)) :=
  (List.range calls.length).map (fun i =>
    (analyze (runAnalyzer history (calls.take i)) (calls.getD i default)).2)

end Fairness

namespace BiasAuditorMod

/-- Source: `SENSITIVE_KEYS` of `score_calculator.py`. -/
def SENSITIVE_KEYS : List String :=
  ["gender", "race", "ethnicity", "age", "accent", "nationality", "religion", "disability"]

/-- Source: `IRRELEVANT_KEYS` of `score_calculator.py`. -/
def IRRELEVANT_KEYS : List String :=
  ["camera_brand", "device_model", "network_quality", "lighting_condition"]

/-- A caller-supplied session context: keys with possibly-`None` values. -/
def SessionContext : Type := List (String × Option String)

/-- `{k: v for k, v in session_context.items() if k in SENSITIVE_KEYS and v is
not None}`. -/
def flagged_sensitive (ctx : SessionContext) : List (String × String) :=
  ctx.filterMap (fun kv =>
    match kv.2 with
    | some v => if kv.1 ∈ SENSITIVE_KEYS then some (kv.1, v) else none
    | none => none)

/-- One retained history sample of the bias auditor: the overall performance
score (`summary_scores.get("overallPerformanceScore", 0.0)`) and the flagged
sensitive attributes. -/
structure BSample where
  overall : ℚ
  sensitive : List (String × String)
deriving DecidableEq, Repr

/-- `sample["sensitive"][key]` lookups over the history: the scores of rows
carrying the key, grouped per distinct value (first-occurrence order). -/
def group_values (history : List BSample) (key : String) : List String :=
  dedupFirst (history.filterMap (fun s => (s.sensitive.find? (fun p => p.1 == key)).map
    (fun p => p.2)))

def group_mean (history : List BSample) (key value : String) : ℚ :=
  mean ((history.filter (fun s =>
    (s.sensitive.find? (fun p => p.1 == key)).map (fun p => p.2) == some value)).map
    (fun s => s.overall))

/-- Source: `BiasAuditor.audit` — the new history (appended and truncated to
the last 500 only when a sensitive key with a non-`None` value is present)
and the disparity warnings, modelled as the sensitive keys flagged
(the source formats each into a message string; the irrelevant-context
warning carries no key and is not part of any claim). -/
def audit (history : List BSample) (ctx : SessionContext) (overall : ℚ) :
    List BSample × List String :=
  if flagged_sensitive ctx = [] then (history, [])
  else
    let h := takeLast 500 (history ++ [⟨overall, flagged_sensitive ctx⟩])
    (h, ((flagged_sensitive ctx).map (fun kv => kv.1)).filter (fun key =>
      let values := group_values h key
      decide (2 ≤ values.length)
        && decide ((15 : ℚ) < maxD (values.map (group_mean h key))
          - minD (values.map (group_mean h key)))
        && decide (20 ≤ h.length)))

/-- Whether a call's context carries at least one sensitive key with a
non-`None` value (the history-append condition of `audit`). -/
def hasSensitive (c : SessionContext × ℚ) : Bool :=
  !(flagged_sensitive c.1).isEmpty

/-- The history sample appended by `audit` for a call. -/
def mkBSample (c : SessionContext × ℚ) : BSample :=
  ⟨c.2, flagged_sensitive c.1⟩

/-- Fold of `audit` over a call sequence. -/
def runAuditor (history : List BSample) (calls : List (SessionContext × ℚ)) : List BSample :=
  calls.foldl (fun h c => (audit h c.1 c.2).1) history

end BiasAuditorMod

/-! ## Basic lemmas about the numeric helpers -/

lemma inRange_clamp (v : ℚ) : inRange (clamp v 0 100) := by
  refine ⟨le_max_left _ _, max_le (by norm_num) (min_le_left _ _)⟩

lemma clamp_nonneg_of (v lo hi : ℚ) (h : 0 ≤ lo) : 0 ≤ clamp v lo hi :=
  le_trans h (le_max_left _ _)

lemma roundHalfEven_ge_floor (q : ℚ) : ⌊q⌋ ≤ roundHalfEven q := by
  unfold roundHalfEven
  split_ifs <;> omega

lemma roundHalfEven_le_floor_add_one (q : ℚ) : roundHalfEven q ≤ ⌊q⌋ + 1 := by
  unfold roundHalfEven
  split_ifs <;> omega

lemma roundHalfEven_intCast (n : ℤ) : roundHalfEven (n : ℚ) = n := by
  unfold roundHalfEven
  rw [Int.floor_intCast]
  norm_num

lemma inRange_roundTo (p : ℕ) (x : ℚ) (h : inRange x) : inRange (roundTo p x) := by
  obtain ⟨h0, h100⟩ := h
  have hpow : (0 : ℚ) < (10 : ℚ) ^ p := by positivity
  unfold roundTo
  set y := x * (10 : ℚ) ^ p with hy
  have hy0 : 0 ≤ y := mul_nonneg h0 (le_of_lt hpow)
  have hyB : y ≤ (100 : ℚ) * (10 : ℚ) ^ p := by
    apply mul_le_mul_of_nonneg_right h100 (le_of_lt hpow)
  constructor
  · apply div_nonneg _ (le_of_lt hpow)
    have : (0 : ℤ) ≤ ⌊y⌋ := Int.floor_nonneg.mpr hy0
    have := le_trans this (roundHalfEven_ge_floor y)
    exact_mod_cast this
  · rw [div_le_iff₀ hpow]
    have hB : ((100 * 10 ^ p : ℤ) : ℚ) = (100 : ℚ) * (10 : ℚ) ^ p := by push_cast; ring
    have : roundHalfEven y ≤ (100 * 10 ^ p : ℤ) := by
      rcases eq_or_lt_of_le hyB with heq | hlt
      · have : y = ((100 * 10 ^ p : ℤ) : ℚ) := by rw [hB]; exact heq
        rw [this, roundHalfEven_intCast]
      · have hfl : ⌊y⌋ < (100 * 10 ^ p : ℤ) := by
          apply Int.floor_lt.mpr
          rw [hB]; exact hlt
        have := roundHalfEven_le_floor_add_one y
        omega
    calc ((roundHalfEven y : ℚ)) ≤ ((100 * 10 ^ p : ℤ) : ℚ) := by exact_mod_cast this
      _ = (100 : ℚ) * (10 : ℚ) ^ p := hB

lemma roundTo_eq_self_of_intMul (p : ℕ) (q : ℚ) (m : ℤ) (h : q * (10 : ℚ) ^ p = m) :
    roundTo p q = q := by
  have hpow : (0 : ℚ) < (10 : ℚ) ^ p := by positivity
  unfold roundTo
  rw [h, roundHalfEven_intCast, ← h]
  field_simp

/-! ## C9 — speaking-rate banding -/

/-- C9 counterexample: the claim says every sample falls into one of the three
buckets slow/optimal/fast, in particular a speaking rate of 0; but the code
assigns rate 0 the fourth bucket `unknown_rate`, which is none of them. -/
theorem c9_counterexample :
    Fairness.band_speaking_rate 0 = "unknown_rate" ∧
      ("unknown_rate" : String) ∉ (["slow_rate", "optimal_rate", "fast_rate"] : List String) := by
  constructor
  · rfl
  · decide

/-- C9 (amended): the speaking-rate banding assigns exactly one of FOUR
buckets: `unknown_rate` for rates at most 0, `slow_rate` for rates strictly
between 0 and 110, `optimal_rate` for rates from 110 to 160 inclusive, and
`fast_rate` above 160. -/
theorem c9_speaking_rate_band (rate : ℚ) :
    (Fairness.band_speaking_rate rate = "unknown_rate" ↔ rate ≤ 0) ∧
    (Fairness.band_speaking_rate rate = "slow_rate" ↔ 0 < rate ∧ rate < 110) ∧
    (Fairness.band_speaking_rate rate = "optimal_rate" ↔ 110 ≤ rate ∧ rate ≤ 160) ∧
    (Fairness.band_speaking_rate rate = "fast_rate" ↔ 160 < rate) := by
  unfold Fairness.band_speaking_rate
  split_ifs with h1 h2 h3 <;>
    refine ⟨⟨fun hh => ?_, fun hh => ?_⟩, ⟨fun hh => ?_, fun hh => ?_⟩,
      ⟨fun hh => ?_, fun hh => ?_⟩, ⟨fun hh => ?_, fun hh => ?_⟩⟩ <;>
    first
      | rfl
      | (exact absurd hh (by decide))
      | linarith
      | (constructor <;> linarith)

/-- C9 witness: the amended characterization evaluated at rate 135 (optimal). -/
theorem c9_witness :
    Fairness.band_speaking_rate 135 = "optimal_rate" :=
  ((c9_speaking_rate_band 135).2.2.1).mpr (by norm_num)


/-! ## C10 — eye-contact percent normalization -/

/-- C10: both copies of the normalizer rescale values at most 1 by 100 and
pass larger values through unchanged (clamped to [0,100]); the map is
discontinuous at 1: input 1 gives 100 while input 1.01 gives 1.01. -/
theorem c10_normalize_percent (v : ℚ) :
    (v ≤ 1 → ScoreCalculator.normalize_percent v = clamp (v * 100) 0 100 ∧
      AdvancedScoring.normalize_percent v = clamp (v * 100) 0 100) ∧
    (1 < v → ScoreCalculator.normalize_percent v = clamp v 0 100 ∧
      AdvancedScoring.normalize_percent v = clamp v 0 100) ∧
    ScoreCalculator.normalize_percent 1 = 100 ∧
    ScoreCalculator.normalize_percent 1.01 = 1.01 ∧
    AdvancedScoring.normalize_percent 1 = 100 ∧
    AdvancedScoring.normalize_percent 1.01 = 1.01 := by
  refine ⟨fun h => ⟨?_, ?_⟩, fun h => ⟨?_, ?_⟩, ?_, ?_, ?_, ?_⟩
  · unfold ScoreCalculator.normalize_percent; rw [if_pos h]
  · unfold AdvancedScoring.normalize_percent; rw [if_pos h]
  · unfold ScoreCalculator.normalize_percent; rw [if_neg (not_le.mpr h)]
  · unfold AdvancedScoring.normalize_percent; rw [if_neg (not_le.mpr h)]
  · norm_num [ScoreCalculator.normalize_percent, clamp, min_def, max_def]
  · norm_num [ScoreCalculator.normalize_percent, clamp, min_def, max_def]
  · norm_num [AdvancedScoring.normalize_percent, clamp, min_def, max_def]
  · norm_num [AdvancedScoring.normalize_percent, clamp, min_def, max_def]

/-- C10 witness: the two branch characterizations at 0.5 and at 2. -/
theorem c10_witness :
    ScoreCalculator.normalize_percent 0.5 = clamp (0.5 * 100) 0 100 ∧
      AdvancedScoring.normalize_percent 2 = clamp 2 0 100 :=
  ⟨((c10_normalize_percent 0.5).1 (by norm_num)).1,
   ((c10_normalize_percent 2).2.1 (by norm_num)).2⟩

/-! ## C8 — rubric level mapping -/

lemma score_to_level_std (s : ℚ) (de dg dn : String) :
    Rubric.score_to_level s
        [⟨85, "Excellent", de⟩, ⟨70, "Good", dg⟩, ⟨0, "Needs Improvement", dn⟩] =
      if 85 ≤ clamp s 0 100 then ⟨85, "Excellent", de⟩
      else if 70 ≤ clamp s 0 100 then ⟨70, "Good", dg⟩
      else ⟨0, "Needs Improvement", dn⟩ := by
  have h0 : (0 : ℚ) ≤ clamp s 0 100 := (inRange_clamp s).1
  unfold Rubric.score_to_level
  by_cases h1 : (85 : ℚ) ≤ clamp s 0 100
  · simp [List.find?, h1]
  · by_cases h2 : (70 : ℚ) ≤ clamp s 0 100 <;> simp [List.find?, h1, h2, h0]

lemma c8_core (s : ℚ) (de dg dn : String) :
    ((Rubric.score_to_level s
        [⟨85, "Excellent", de⟩, ⟨70, "Good", dg⟩,
          ⟨0, "Needs Improvement", dn⟩]).label = "Excellent" ↔ 85 ≤ clamp s 0 100) ∧
    ((Rubric.score_to_level s
        [⟨85, "Excellent", de⟩, ⟨70, "Good", dg⟩,
          ⟨0, "Needs Improvement", dn⟩]).label = "Good" ↔
      70 ≤ clamp s 0 100 ∧ clamp s 0 100 < 85) ∧
    ((Rubric.score_to_level s
        [⟨85, "Excellent", de⟩, ⟨70, "Good", dg⟩,
          ⟨0, "Needs Improvement", dn⟩]).label = "Needs Improvement" ↔
      clamp s 0 100 < 70) ∧
    Rubric.score_to_level s
        [⟨85, "Excellent", de⟩, ⟨70, "Good", dg⟩, ⟨0, "Needs Improvement", dn⟩] ∈
      ([⟨85, "Excellent", de⟩, ⟨70, "Good", dg⟩,
        ⟨0, "Needs Improvement", dn⟩] : List Rubric.RubricLevel) := by
  rw [score_to_level_std]
  split_ifs with h1 h2
  · refine ⟨by simp [h1], ⟨fun hh => absurd hh (by simp), fun hh => ?_⟩,
      ⟨fun hh => absurd hh (by simp), fun hh => ?_⟩, by simp⟩
    · exact absurd h1 (not_le.mpr hh.2)
    · exact absurd h1 (not_le.mpr (by linarith))
  · refine ⟨⟨fun hh => absurd hh (by simp), fun hh => absurd hh h1⟩,
      iff_of_true rfl ⟨h2, not_le.mp h1⟩,
      ⟨fun hh => absurd hh (by simp), fun hh => absurd h2 (not_le.mpr hh)⟩, by simp⟩
  · refine ⟨⟨fun hh => absurd hh (by simp), fun hh => absurd (le_trans (by norm_num) hh) h2⟩,
      ⟨fun hh => absurd hh (by simp), fun hh => absurd hh.1 h2⟩,
      iff_of_true rfl (not_le.mp h2), by simp⟩

lemma clamp_id (v : ℚ) (h0 : 0 ≤ v) (h1 : v ≤ 100) : clamp v 0 100 = v := by
  unfold clamp; rw [min_eq_right h1, max_eq_right h0]

lemma c8_examples (de dg dn : String) :
    (Rubric.score_to_level 85
      [⟨85, "Excellent", de⟩, ⟨70, "Good", dg⟩,
        ⟨0, "Needs Improvement", dn⟩]).label = "Excellent" ∧
    (Rubric.score_to_level (84.999 : ℚ)
      [⟨85, "Excellent", de⟩, ⟨70, "Good", dg⟩,
        ⟨0, "Needs Improvement", dn⟩]).label = "Good" ∧
    (Rubric.score_to_level 0
      [⟨85, "Excellent", de⟩, ⟨70, "Good", dg⟩,
        ⟨0, "Needs Improvement", dn⟩]).label = "Needs Improvement" := by
  have h85 : clamp (85 : ℚ) 0 100 = 85 := clamp_id _ (by norm_num) (by norm_num)
  have h84 : clamp (84.999 : ℚ) 0 100 = 84.999 := clamp_id _ (by norm_num) (by norm_num)
  have hz : clamp (0 : ℚ) 0 100 = 0 := clamp_id _ le_rfl (by norm_num)
  refine ⟨?_, ?_, ?_⟩
  · rw [score_to_level_std, if_pos (by norm_num [h85])]
  · rw [score_to_level_std, if_neg (by rw [h84]; norm_num), if_pos (by rw [h84]; norm_num)]
  · rw [score_to_level_std, if_neg (by norm_num [hz]), if_neg (by norm_num [hz])]

/-- C8: for every score and each of the four rubric dimensions, the level is
`Excellent` exactly when the clamped score reaches 85, `Good` exactly when it
lies in [70, 85), and `Needs Improvement` otherwise; the returned level (with
its fixed descriptor string) is one of the hard-coded entries of that
dimension (12 strings in total over the four dimensions); and 85 maps to
Excellent, 84.999 to Good, and 0 to Needs Improvement. -/
theorem c8_rubric_levels (s : ℚ) (lv : List Rubric.RubricLevel)
    (hlv : lv = Rubric.communication_levels ∨ lv = Rubric.technical_clarity_levels ∨
      lv = Rubric.behavioral_response_levels ∨ lv = Rubric.engagement_levels) :
    ((Rubric.score_to_level s lv).label = "Excellent" ↔ 85 ≤ clamp s 0 100) ∧
    ((Rubric.score_to_level s lv).label = "Good" ↔
      70 ≤ clamp s 0 100 ∧ clamp s 0 100 < 85) ∧
    ((Rubric.score_to_level s lv).label = "Needs Improvement" ↔ clamp s 0 100 < 70) ∧
    Rubric.score_to_level s lv ∈ lv ∧
    (Rubric.score_to_level 85 lv).label = "Excellent" ∧
    (Rubric.score_to_level (84.999 : ℚ) lv).label = "Good" ∧
    (Rubric.score_to_level 0 lv).label = "Needs Improvement" := by
  rcases hlv with rfl | rfl | rfl | rfl
  · unfold Rubric.communication_levels
    obtain ⟨e1, e2, e3, e4⟩ := c8_core s _ _ _
    obtain ⟨x1, x2, x3⟩ := c8_examples _ _ _
    exact ⟨e1, e2, e3, e4, x1, x2, x3⟩
  · unfold Rubric.technical_clarity_levels
    obtain ⟨e1, e2, e3, e4⟩ := c8_core s _ _ _
    obtain ⟨x1, x2, x3⟩ := c8_examples _ _ _
    exact ⟨e1, e2, e3, e4, x1, x2, x3⟩
  · unfold Rubric.behavioral_response_levels
    obtain ⟨e1, e2, e3, e4⟩ := c8_core s _ _ _
    obtain ⟨x1, x2, x3⟩ := c8_examples _ _ _
    exact ⟨e1, e2, e3, e4, x1, x2, x3⟩
  · unfold Rubric.engagement_levels
    obtain ⟨e1, e2, e3, e4⟩ := c8_core s _ _ _
    obtain ⟨x1, x2, x3⟩ := c8_examples _ _ _
    exact ⟨e1, e2, e3, e4, x1, x2, x3⟩

/-- C8 witness: the characterization applied to the communication dimension at
score 42 gives the needs-improvement level. -/
theorem c8_witness :
    (Rubric.score_to_level 42 Rubric.communication_levels).label = "Needs Improvement" := by
  have h := c8_rubric_levels 42 Rubric.communication_levels (Or.inl rfl)
  exact h.2.2.1.mpr (by rw [clamp_id 42 (by norm_num) (by norm_num)]; norm_num)

/-! ## C1 — score ranges and the exception behavior of the sigmoid heads -/

lemma inRange_engagement (m : EngagementMetrics) (fused : List FusedWindow) :
    inRange (ScoreCalculator.compute_engagement_score m fused).1 :=
  inRange_clamp _

lemma inRange_emotional (traj : List EmotionPoint) :
    inRange (ScoreCalculator.compute_emotional_regulation_score traj) := by
  unfold ScoreCalculator.compute_emotional_regulation_score
  split_ifs
  · exact ⟨by norm_num, by norm_num⟩
  · exact inRange_clamp _

lemma inRange_speech (sq : SpeechQualityMetrics) (tl : List SpeechPoint) :
    inRange (ScoreCalculator.compute_speech_clarity_score sq tl) :=
  inRange_clamp _

lemma inRange_content (segs : List SegmentLabel) (fused : List FusedWindow) :
    inRange (ScoreCalculator.compute_content_relevance_score segs fused) := by
  unfold ScoreCalculator.compute_content_relevance_score
  split_ifs <;> exact inRange_clamp _

lemma inRange_head_predict (e : ℚ → ℚ) (h : ScoringModels.RegressionHead)
    (features : List ℚ) (x : ℚ) (hx : h.predict e features = some x) : inRange x := by
  unfold ScoringModels.RegressionHead.predict ScoringModels.sigmoid_to_100 at hx
  split_ifs at hx with h1 h2
  · obtain rfl := Option.some.inj hx
    exact ⟨by norm_num, by norm_num⟩
  · obtain rfl := Option.some.inj hx
    exact ⟨le_max_left _ _, max_le (by norm_num) (min_le_left _ _)⟩

lemma head_predict_none_iff (e : ℚ → ℚ) (h : ScoringModels.RegressionHead)
    (features : List ℚ) :
    h.predict e features = none ↔ h.overflows features := by
  unfold ScoringModels.RegressionHead.predict ScoringModels.sigmoid_to_100
    ScoringModels.RegressionHead.overflows
  split_ifs with h1 h2
  · exact ⟨fun hcon => absurd hcon (by simp), fun hov => absurd h1 hov.1⟩
  · exact ⟨fun _ => ⟨h1, h2⟩, fun _ => rfl⟩
  · exact ⟨fun hcon => absurd hcon (by simp), fun hov => absurd hov.2 h2⟩

lemma trainable_predict_none_iff (e : ℚ → ℚ)
    (h : AdvancedScoring.TrainableRegressionHead) (features : List ℚ) :
    h.predict e features = none ↔ h.overflows features := by
  unfold AdvancedScoring.TrainableRegressionHead.predict AdvancedScoring.sigmoid_to_100
    AdvancedScoring.TrainableRegressionHead.overflows
  split_ifs with h1 h2
  · exact ⟨fun hcon => absurd hcon (by simp), fun hov => absurd h1 hov.1⟩
  · exact ⟨fun _ => ⟨h1, h2⟩, fun _ => rfl⟩
  · exact ⟨fun hcon => absurd hcon (by simp), fun hov => absurd hov.2 h2⟩

lemma readiness_predict_some_inRange (e : ℚ → ℚ) (fused : List FusedWindow)
    (mp : ScoringModels.ReadinessPredictions)
    (h : ScoringModels.readiness_predict e fused = some mp) :
    inRange mp.confidence ∧ inRange mp.communicationEffectiveness ∧
      inRange mp.interviewReadiness := by
  unfold ScoringModels.readiness_predict at h
  dsimp only at h
  rcases h1 : ScoringModels.RegressionHead.predict e ScoringModels.confidence_head
      (ScoringModels.pool_fused_vectors fused) with _ | c <;>
  rcases h2 : ScoringModels.RegressionHead.predict e ScoringModels.communication_head
      (ScoringModels.pool_fused_vectors fused) with _ | m <;>
  rcases h3 : ScoringModels.RegressionHead.predict e ScoringModels.readiness_head
      (ScoringModels.pool_fused_vectors fused) with _ | rr <;>
  rw [h1, h2, h3] at h <;>
  simp at h
  subst h
  exact ⟨inRange_roundTo 2 _ (inRange_head_predict e _ _ _ h1),
    inRange_roundTo 2 _ (inRange_head_predict e _ _ _ h2),
    inRange_roundTo 2 _ (inRange_head_predict e _ _ _ h3)⟩

lemma readiness_predict_none_iff (e : ℚ → ℚ) (fused : List FusedWindow) :
    ScoringModels.readiness_predict e fused = none ↔
      (ScoringModels.confidence_head.overflows (ScoringModels.pool_fused_vectors fused) ∨
        ScoringModels.communication_head.overflows (ScoringModels.pool_fused_vectors fused) ∨
        ScoringModels.readiness_head.overflows (ScoringModels.pool_fused_vectors fused)) := by
  have i1 := head_predict_none_iff e ScoringModels.confidence_head
    (ScoringModels.pool_fused_vectors fused)
  have i2 := head_predict_none_iff e ScoringModels.communication_head
    (ScoringModels.pool_fused_vectors fused)
  have i3 := head_predict_none_iff e ScoringModels.readiness_head
    (ScoringModels.pool_fused_vectors fused)
  unfold ScoringModels.readiness_predict
  rcases h1 : ScoringModels.RegressionHead.predict e ScoringModels.confidence_head
      (ScoringModels.pool_fused_vectors fused) with _ | c <;>
  rcases h2 : ScoringModels.RegressionHead.predict e ScoringModels.communication_head
      (ScoringModels.pool_fused_vectors fused) with _ | m <;>
  rcases h3 : ScoringModels.RegressionHead.predict e ScoringModels.readiness_head
      (ScoringModels.pool_fused_vectors fused) with _ | rr <;>
  simp [h1, h2, h3, ← i1, ← i2, ← i3]

lemma session_scores_none_iff (e : ℚ → ℚ) (em : EngagementMetrics)
    (traj : List EmotionPoint) (sq : SpeechQualityMetrics) (segs : List SegmentLabel)
    (fused : List FusedWindow) (tl : List SpeechPoint) :
    ScoreCalculator.compute_session_scores e em traj sq segs fused tl = none ↔
      ScoringModels.readiness_predict e fused = none := by
  unfold ScoreCalculator.compute_session_scores
  rcases h : ScoringModels.readiness_predict e fused with _ | mp <;> simp [h]

lemma advanced_predict_none_iff (e : ℚ → ℚ)
    (tp : List ℚ → List ℚ → List ℚ → AdvancedScoring.AdvancedScores)
    (em : EngagementMetrics) (sq : SpeechQualityMetrics) (segs : List SegmentLabel)
    (fused : List FusedWindow) :
    AdvancedScoring.predict e tp em sq segs fused = none ↔
      (AdvancedScoring.engagement_head.overflows
          (AdvancedScoring.build_vision_embedding em fused
            ++ AdvancedScoring.build_audio_embedding sq fused
            ++ AdvancedScoring.build_text_embedding segs fused) ∨
        AdvancedScoring.communication_head.overflows
          (AdvancedScoring.build_vision_embedding em fused
            ++ AdvancedScoring.build_audio_embedding sq fused
            ++ AdvancedScoring.build_text_embedding segs fused) ∨
        AdvancedScoring.comprehension_head.overflows
          (AdvancedScoring.build_vision_embedding em fused
            ++ AdvancedScoring.build_audio_embedding sq fused
            ++ AdvancedScoring.build_text_embedding segs fused) ∨
        AdvancedScoring.overall_head.overflows
          (AdvancedScoring.build_vision_embedding em fused
            ++ AdvancedScoring.build_audio_embedding sq fused
            ++ AdvancedScoring.build_text_embedding segs fused)) := by
  have i1 := trainable_predict_none_iff e AdvancedScoring.engagement_head
    (AdvancedScoring.build_vision_embedding em fused
      ++ AdvancedScoring.build_audio_embedding sq fused
      ++ AdvancedScoring.build_text_embedding segs fused)
  have i2 := trainable_predict_none_iff e AdvancedScoring.communication_head
    (AdvancedScoring.build_vision_embedding em fused
      ++ AdvancedScoring.build_audio_embedding sq fused
      ++ AdvancedScoring.build_text_embedding segs fused)
  have i3 := trainable_predict_none_iff e AdvancedScoring.comprehension_head
    (AdvancedScoring.build_vision_embedding em fused
      ++ AdvancedScoring.build_audio_embedding sq fused
      ++ AdvancedScoring.build_text_embedding segs fused)
  have i4 := trainable_predict_none_iff e AdvancedScoring.overall_head
    (AdvancedScoring.build_vision_embedding em fused
      ++ AdvancedScoring.build_audio_embedding sq fused
      ++ AdvancedScoring.build_text_embedding segs fused)
  unfold AdvancedScoring.predict
  rcases h1 : AdvancedScoring.TrainableRegressionHead.predict e
      AdvancedScoring.engagement_head
      (AdvancedScoring.build_vision_embedding em fused
        ++ AdvancedScoring.build_audio_embedding sq fused
        ++ AdvancedScoring.build_text_embedding segs fused) with _ | r1 <;>
  rcases h2 : AdvancedScoring.TrainableRegressionHead.predict e
      AdvancedScoring.communication_head
      (AdvancedScoring.build_vision_embedding em fused
        ++ AdvancedScoring.build_audio_embedding sq fused
        ++ AdvancedScoring.build_text_embedding segs fused) with _ | r2 <;>
  rcases h3 : AdvancedScoring.TrainableRegressionHead.predict e
      AdvancedScoring.comprehension_head
      (AdvancedScoring.build_vision_embedding em fused
        ++ AdvancedScoring.build_audio_embedding sq fused
        ++ AdvancedScoring.build_text_embedding segs fused) with _ | r3 <;>
  rcases h4 : AdvancedScoring.TrainableRegressionHead.predict e
      AdvancedScoring.overall_head
      (AdvancedScoring.build_vision_embedding em fused
        ++ AdvancedScoring.build_audio_embedding sq fused
        ++ AdvancedScoring.build_text_embedding segs fused) with _ | r4 <;>
  simp [h1, h2, h3, h4, ← i1, ← i2, ← i3, ← i4, -List.append_assoc]

/-- A valid fused window (all fields in their documented shapes) whose pause
component of 3000 seconds drives the readiness confidence head (weight -0.25
on that component) to a linear score near -750, so `math.exp(750.15)`
overflows. -/
def c1_overflow_window : FusedWindow :=
  ⟨0, 2, [(("neutral" : String), (1 : ℚ))], ⟨0, 0, 0⟩, "center", ⟨0, 0, 3000, 0⟩,
    ⟨0, 0, 0⟩, [0, 0, 0, 0, 0, 3000, 0, 0, 0, 0]⟩

/-- C1 counterexample: the claim's never-raises conjunct fails on a valid
input — with the fused window above, `compute_session_scores` calls
`math.exp` past the float overflow bound inside the confidence head and
raises `OverflowError` (modelled by `none`); no score is produced at all. -/
theorem c1_counterexample :
    ScoreCalculator.compute_session_scores (fun _ => 1) ⟨0, 0, 0, 0⟩ [] ⟨0, 0, 0, 0⟩ []
      [c1_overflow_window] [] = none := by
  rw [session_scores_none_iff, readiness_predict_none_iff]
  left
  have hpool : ScoringModels.pool_fused_vectors [c1_overflow_window] =
      [0, 0, 0, 0, 0, 3000, 0, 0, 0, 0] := by
    unfold ScoringModels.pool_fused_vectors
    rw [if_neg (by simp)]
    have hv : ((([c1_overflow_window].map (fun it => it.fusedVector)).filter
        (fun v => v ≠ []))) = [[0, 0, 0, 0, 0, 3000, 0, 0, 0, 0]] := by
      simp [c1_overflow_window]
    rw [hv, if_neg (by simp)]
    norm_num [show List.range 10 = [0, 1, 2, 3, 4, 5, 6, 7, 8, 9] from rfl, List.getD]
  rw [hpool]
  refine ⟨by simp, ?_⟩
  norm_num [ScoringModels.confidence_head, OVERFLOW_THRESHOLD]

/-- C1 (amended): whenever the computation completes, all eight
`summaryScores` values of `compute_session_scores` and all four scores of
`AdvancedMultimodalScorer.predict` lie in [0, 100] and, being exact
rationals, are never NaN (quantified over `math.exp`'s finite values and the
torch encoder, so every concrete execution path is an instance); but the
computation is NOT exception-free: it raises exactly when one of the sigmoid
regression heads (three readiness heads, four advanced heads) drives
`math.exp` past the float overflow bound on its (non-empty) feature
vector — which the counterexample shows is reachable for valid inputs. -/
theorem c1_scores_bounded :
    (∀ (e : ℚ → ℚ) (em : EngagementMetrics) (traj : List EmotionPoint)
        (sq : SpeechQualityMetrics) (segs : List SegmentLabel)
        (fused : List FusedWindow) (tl : List SpeechPoint)
        (r : ScoreCalculator.SummaryScores × Rubric.RubricEvaluation),
      ScoreCalculator.compute_session_scores e em traj sq segs fused tl = some r →
      inRange r.1.engagementScore ∧ inRange r.1.confidenceScore ∧
      inRange r.1.speechFluency ∧ inRange r.1.emotionalStability ∧
      inRange r.1.contentRelevanceScore ∧ inRange r.1.overallPerformanceScore ∧
      inRange r.1.communicationEffectiveness ∧ inRange r.1.interviewReadiness) ∧
    (∀ (e : ℚ → ℚ) (tp : List ℚ → List ℚ → List ℚ → AdvancedScoring.AdvancedScores)
        (em : EngagementMetrics) (sq : SpeechQualityMetrics)
        (segs : List SegmentLabel) (fused : List FusedWindow)
        (r : AdvancedScoring.AdvancedScores),
      AdvancedScoring.predict e tp em sq segs fused = some r →
      inRange r.engagement ∧ inRange r.communicationClarity ∧
      inRange r.interviewComprehension ∧ inRange r.overallPerformance) ∧
    (∀ (e : ℚ → ℚ) (em : EngagementMetrics) (traj : List EmotionPoint)
        (sq : SpeechQualityMetrics) (segs : List SegmentLabel)
        (fused : List FusedWindow) (tl : List SpeechPoint),
      ScoreCalculator.compute_session_scores e em traj sq segs fused tl = none ↔
        (ScoringModels.confidence_head.overflows (ScoringModels.pool_fused_vectors fused) ∨
          ScoringModels.communication_head.overflows
            (ScoringModels.pool_fused_vectors fused) ∨
          ScoringModels.readiness_head.overflows
            (ScoringModels.pool_fused_vectors fused))) ∧
    (∀ (e : ℚ → ℚ) (tp : List ℚ → List ℚ → List ℚ → AdvancedScoring.AdvancedScores)
        (em : EngagementMetrics) (sq : SpeechQualityMetrics)
        (segs : List SegmentLabel) (fused : List FusedWindow),
      AdvancedScoring.predict e tp em sq segs fused = none ↔
        (AdvancedScoring.engagement_head.overflows
            (AdvancedScoring.build_vision_embedding em fused
              ++ AdvancedScoring.build_audio_embedding sq fused
              ++ AdvancedScoring.build_text_embedding segs fused) ∨
          AdvancedScoring.communication_head.overflows
            (AdvancedScoring.build_vision_embedding em fused
              ++ AdvancedScoring.build_audio_embedding sq fused
              ++ AdvancedScoring.build_text_embedding segs fused) ∨
          AdvancedScoring.comprehension_head.overflows
            (AdvancedScoring.build_vision_embedding em fused
              ++ AdvancedScoring.build_audio_embedding sq fused
              ++ AdvancedScoring.build_text_embedding segs fused) ∨
          AdvancedScoring.overall_head.overflows
            (AdvancedScoring.build_vision_embedding em fused
              ++ AdvancedScoring.build_audio_embedding sq fused
              ++ AdvancedScoring.build_text_embedding segs fused))) := by
  refine ⟨?_, ?_, ?_, ?_⟩
  · intro e em traj sq segs fused tl r hr
    unfold ScoreCalculator.compute_session_scores at hr
    dsimp only at hr
    rcases hmp : ScoringModels.readiness_predict e fused with _ | mp
    · rw [hmp] at hr
      simp at hr
    · rw [hmp] at hr
      obtain ⟨hc, hm, hrr⟩ := readiness_predict_some_inRange e fused mp hmp
      obtain rfl := Option.some.inj hr
      exact ⟨inRange_roundTo 2 _ (inRange_engagement em fused),
        inRange_roundTo 2 _ hc,
        inRange_roundTo 2 _ (inRange_speech sq tl),
        inRange_roundTo 2 _ (inRange_emotional traj),
        inRange_roundTo 2 _ (inRange_content segs fused),
        inRange_roundTo 2 _ (inRange_clamp _),
        inRange_roundTo 2 _ hm,
        inRange_roundTo 2 _ hrr⟩
  · intro e tp em sq segs fused r hr
    unfold AdvancedScoring.predict at hr
    dsimp only at hr
    rcases h1 : AdvancedScoring.TrainableRegressionHead.predict e
        AdvancedScoring.engagement_head
        (AdvancedScoring.build_vision_embedding em fused
          ++ AdvancedScoring.build_audio_embedding sq fused
          ++ AdvancedScoring.build_text_embedding segs fused) with _ | r1 <;>
    rcases h2 : AdvancedScoring.TrainableRegressionHead.predict e
        AdvancedScoring.communication_head
        (AdvancedScoring.build_vision_embedding em fused
          ++ AdvancedScoring.build_audio_embedding sq fused
          ++ AdvancedScoring.build_text_embedding segs fused) with _ | r2 <;>
    rcases h3 : AdvancedScoring.TrainableRegressionHead.predict e
        AdvancedScoring.comprehension_head
        (AdvancedScoring.build_vision_embedding em fused
          ++ AdvancedScoring.build_audio_embedding sq fused
          ++ AdvancedScoring.build_text_embedding segs fused) with _ | r3 <;>
    rcases h4 : AdvancedScoring.TrainableRegressionHead.predict e
        AdvancedScoring.overall_head
        (AdvancedScoring.build_vision_embedding em fused
          ++ AdvancedScoring.build_audio_embedding sq fused
          ++ AdvancedScoring.build_text_embedding segs fused) with _ | r4 <;>
    rw [h1, h2, h3, h4] at hr <;>
    simp [-List.append_assoc] at hr
    subst hr
    exact ⟨inRange_roundTo 2 _ (inRange_clamp _), inRange_roundTo 2 _ (inRange_clamp _),
      inRange_roundTo 2 _ (inRange_clamp _), inRange_roundTo 2 _ (inRange_clamp _)⟩
  · intro e em traj sq segs fused tl
    exact (session_scores_none_iff e em traj sq segs fused tl).trans
      (readiness_predict_none_iff e fused)
  · intro e tp em sq segs fused
    exact advanced_predict_none_iff e tp em sq segs fused

/-- C1 witness: the amended range statement applied at a concrete completing
input — with empty streams and a constant transformer the advanced scorer
returns all four scores equal to 22.5, each in range. -/
theorem c1_witness :
    AdvancedScoring.predict (fun _ => 1) (fun _ _ _ => ⟨0, 0, 0, 0⟩)
        ⟨0, 0, 0, 0⟩ ⟨0, 0, 0, 0⟩ [] [] = some ⟨22.5, 22.5, 22.5, 22.5⟩ ∧
      (inRange (22.5 : ℚ) ∧ inRange (22.5 : ℚ) ∧ inRange (22.5 : ℚ) ∧
        inRange (22.5 : ℚ)) := by
  have hsome : AdvancedScoring.predict (fun _ => 1) (fun _ _ _ => ⟨0, 0, 0, 0⟩)
      ⟨0, 0, 0, 0⟩ ⟨0, 0, 0, 0⟩ [] [] = some ⟨22.5, 22.5, 22.5, 22.5⟩ := by
    unfold AdvancedScoring.predict AdvancedScoring.build_vision_embedding
      AdvancedScoring.build_audio_embedding AdvancedScoring.build_text_embedding
      AdvancedScoring.TrainableRegressionHead.predict AdvancedScoring.sigmoid_to_100
      AdvancedScoring.engagement_head AdvancedScoring.communication_head
      AdvancedScoring.comprehension_head AdvancedScoring.overall_head
    norm_num [AdvancedScoring.normalize_percent, clamp, min_def, max_def,
      OVERFLOW_THRESHOLD, pvariance, mean, roundTo, roundHalfEven]
  exact ⟨hsome, c1_scores_bounded.2.1 (fun _ => 1) (fun _ _ _ => ⟨0, 0, 0, 0⟩)
    ⟨0, 0, 0, 0⟩ ⟨0, 0, 0, 0⟩ [] [] ⟨22.5, 22.5, 22.5, 22.5⟩ hsome⟩

/-! ## C4 — emotional regulation score -/

/-- Population variance as stated in the claim, via the sum-of-squares
identity (written from the claim, to be compared with the source's
`statistics.pvariance`). -/
def specPVariance (xs : List ℚ) : ℚ :=
  (xs.map (fun x => x ^ 2)).sum / (xs.length : ℚ) - (xs.sum / (xs.length : ℚ)) ^ 2

lemma sum_sq_sub (xs : List ℚ) (m : ℚ) :
    (xs.map (fun x => (x - m) ^ 2)).sum =
      (xs.map (fun x => x ^ 2)).sum - 2 * m * xs.sum + (xs.length : ℚ) * m ^ 2 := by
  induction xs with
  | nil => simp
  | cons x xs ih =>
    simp only [List.map_cons, List.sum_cons, ih, List.length_cons]
    push_cast
    ring

lemma pvariance_eq_spec (xs : List ℚ) : pvariance xs = specPVariance xs := by
  rcases eq_or_ne xs [] with rfl | hne
  · simp [pvariance, specPVariance, mean]
  · have hn : ((xs.length : ℚ)) ≠ 0 := by
      simp only [ne_eq, Nat.cast_eq_zero, List.length_eq_zero]
      exact hne
    unfold pvariance specPVariance mean
    rw [sum_sq_sub]
    field_simp
    ring

lemma specPVariance_small (xs : List ℚ) (h : xs.length ≤ 1) : specPVariance xs = 0 := by
  match xs, h with
  | [], _ => simp [specPVariance]
  | [x], _ =>
    simp only [specPVariance, List.map_cons, List.map_nil, List.sum_cons, List.sum_nil,
      List.length_singleton]
    push_cast
    ring

/-- Mean (across labels observed at least twice) of the per-label population
variances, as in the amended claim. -/
def specMeanLabelVariance (traj : List EmotionPoint) : ℚ :=
  let vs := (((ScoreCalculator.trajectory_labels traj).map
    (ScoreCalculator.label_series traj)).filter (fun s => 1 < s.length)).map specPVariance
  if vs = [] then 0 else mean vs

/-- C4 counterexample: the claim demands the constant 50 for every trajectory
with fewer than 2 points, but on the one-point trajectory below the code
computes zero variances and returns 100. -/
theorem c4_counterexample :
    ScoreCalculator.compute_emotional_regulation_score
        [⟨0, "happy", [(("happy" : String), (1/2 : ℚ))]⟩] = 100 ∧
      (100 : ℚ) ≠ 50 := by
  constructor
  · unfold ScoreCalculator.compute_emotional_regulation_score
    rw [if_neg (by simp)]
    norm_num [ScoreCalculator.dominant_scores, ScoreCalculator.trajectory_labels,
      ScoreCalculator.label_series, dedupFirst, maxD, List.filterMap, clamp,
      min_def, max_def]
  · norm_num

/-- C4 (amended): only the empty trajectory yields the constant 50; every
non-empty trajectory (a single point included) yields
`clamp(100 - min(100, 280·Vd + 220·Vl), 0, 100)` where `Vd` is the population
variance of the dominant-emotion scores of the points with non-empty emotion
dictionaries and `Vl` is the mean of the per-label population variances over
the labels observed at least twice (each term 0 when it has fewer than 2
samples). -/
theorem c4_emotional_regulation (traj : List EmotionPoint) :
    ScoreCalculator.compute_emotional_regulation_score traj =
      if traj = [] then 50
      else
        clamp (100 - min 100 (280 * specPVariance (ScoreCalculator.dominant_scores traj)
          + 220 * specMeanLabelVariance traj)) 0 100 := by
  unfold ScoreCalculator.compute_emotional_regulation_score specMeanLabelVariance
  rcases eq_or_ne traj [] with rfl | hne
  · simp
  · rw [if_neg hne, if_neg hne]
    have hdom : (if 1 < (ScoreCalculator.dominant_scores traj).length
        then pvariance (ScoreCalculator.dominant_scores traj) else 0) =
        specPVariance (ScoreCalculator.dominant_scores traj) := by
      split_ifs with h
      · exact pvariance_eq_spec _
      · exact (specPVariance_small _ (by omega)).symm
    have hlab : (((ScoreCalculator.trajectory_labels traj).map
          (ScoreCalculator.label_series traj)).filter (fun s => 1 < s.length)).map pvariance =
        (((ScoreCalculator.trajectory_labels traj).map
          (ScoreCalculator.label_series traj)).filter (fun s => 1 < s.length)).map
            specPVariance := by
      apply List.map_congr_left
      intro s _
      exact pvariance_eq_spec s
    dsimp only
    rw [hdom, hlab, ite_not,
      show ∀ a b : ℚ, a * 280 + b * 220 = 280 * a + 220 * b from fun a b => by ring]

/-! ## C5 — engagement score closed form -/

/-- The closed-form engagement formula as stated in the claim (written from
the claim's wording, to be compared with `compute_engagement_score`):
`clamp(0.4·eyeContactPct + 0.35·gazeStability + 0.25·headMotionScore)` with
`gazeStability = 100·(0.5·dominantGazeRatio + 0.5·centerGazeRatio)` and
`headMotionScore = clamp(100 - 1.5·meanAbsoluteHeadMotion, 0, 100)`. -/
def engagementFormula (m : EngagementMetrics) (ws : List FusedWindow) : ℚ :=
  let gazes := ws.map (fun it => lowerStr it.gazeDirection)
  let dominantGazeRatio := (maxMultiplicity gazes : ℚ) / (gazes.length : ℚ)
  let centerGazeRatio := (gazes.count ("center") : ℚ) / (gazes.length : ℚ)
  let gazeStability := 100 * (0.5 * dominantGazeRatio + 0.5 * centerGazeRatio)
  let headMotionScore := clamp (100 - 1.5 * mean (ws.map
    (fun it => |it.headPose.yaw| + |it.headPose.pitch| + |it.headPose.roll|))) 0 100
  clamp (0.4 * ScoreCalculator.normalize_percent m.eyeContactRatio
    + 0.35 * gazeStability + 0.25 * headMotionScore) 0 100

/-- The fixed example metrics of the claim
(`eyeContactRatio: 0.75, avgHeadStability: 0.85`, other keys absent). -/
def c5_example_metrics : EngagementMetrics := ⟨0, 0.75, 0.85, 0⟩

/-- C5: for every metrics record and non-empty window list the rule-based
engagement score equals the claim's closed-form formula; and on the example
metrics with an empty window list the returned score is exactly 61.5, which
agrees (to within 1e-6, in fact exactly) with the closed form evaluated at
the documented defaults gazeStability = 40 and headMotionScore = 70. -/
theorem c5_engagement_score :
    (∀ (m : EngagementMetrics) (ws : List FusedWindow), ws ≠ [] →
      (ScoreCalculator.compute_engagement_score m ws).1 = engagementFormula m ws) ∧
    (ScoreCalculator.compute_engagement_score c5_example_metrics []).1 = 61.5 ∧
    |(ScoreCalculator.compute_engagement_score c5_example_metrics []).1
      - (0.4 * 75 + 0.35 * 40 + 0.25 * 70)| ≤ 1 / 1000000 := by
  have hmain : ∀ (m : EngagementMetrics) (ws : List FusedWindow), ws ≠ [] →
      (ScoreCalculator.compute_engagement_score m ws).1 = engagementFormula m ws := by
    intro m ws hne
    unfold ScoreCalculator.compute_engagement_score engagementFormula
    have hg : ws.map (fun it => lowerStr it.gazeDirection) ≠ [] := by
      simpa using hne
    have hh : ws.map (fun it => |it.headPose.yaw| + |it.headPose.pitch| + |it.headPose.roll|)
        ≠ [] := by simpa using hne
    dsimp only
    rw [if_pos hg, if_pos hh]
    congr 1
    ring_nf
  have hempty : (ScoreCalculator.compute_engagement_score c5_example_metrics []).1 = 61.5 := by
    unfold ScoreCalculator.compute_engagement_score c5_example_metrics
    norm_num [ScoreCalculator.normalize_percent, clamp, min_def, max_def]
  refine ⟨hmain, hempty, ?_⟩
  rw [hempty]
  norm_num

/-- C5 witness: the closed form instantiated at a concrete singleton window
list. -/
theorem c5_witness :
    (ScoreCalculator.compute_engagement_score c5_example_metrics
        [⟨0, 2, [(("neutral" : String), (1 : ℚ))], ⟨0, 0, 0⟩, "center",
          ⟨0, 0, 0, 0⟩, ⟨0, 0, 0⟩, []⟩]).1 =
      engagementFormula c5_example_metrics
        [⟨0, 2, [(("neutral" : String), (1 : ℚ))], ⟨0, 0, 0⟩, "center",
          ⟨0, 0, 0, 0⟩, ⟨0, 0, 0⟩, []⟩] :=
  c5_engagement_score.1 c5_example_metrics _ (by simp)

/-! ## C7 — auditor history bounds and FIFO eviction -/

lemma takeLast_length_le (n : ℕ) (xs : List α) : (takeLast n xs).length ≤ n := by
  unfold takeLast
  rw [List.length_drop]
  omega

lemma takeLast_append_takeLast (n : ℕ) (xs ys : List α) :
    takeLast n (takeLast n xs ++ ys) = takeLast n (xs ++ ys) := by
  unfold takeLast
  simp only [List.drop_append_eq_append_drop, List.drop_drop, List.length_append,
    List.length_drop]
  congr 2 <;> omega

lemma takeLast_nil (n : ℕ) : takeLast n ([] : List α) = [] := by
  unfold takeLast
  simp

lemma runAnalyzer_nil (hist : List Fairness.FSample) :
    Fairness.runAnalyzer hist [] = hist := rfl

lemma runAnalyzer_cons (hist : List Fairness.FSample) (c : Fairness.FInput)
    (rest : List Fairness.FInput) :
    Fairness.runAnalyzer hist (c :: rest) =
      Fairness.runAnalyzer (Fairness.analyze hist c).1 rest := rfl

lemma analyze_fst (hist : List Fairness.FSample) (inp : Fairness.FInput) :
    (Fairness.analyze hist inp).1 = takeLast 1000 (hist ++ [Fairness.mkSample inp]) := rfl

lemma runAnalyzer_shift (calls : List Fairness.FInput) :
    ∀ pre : List Fairness.FSample,
      Fairness.runAnalyzer (takeLast 1000 pre) calls =
        takeLast 1000 (pre ++ calls.map Fairness.mkSample) := by
  induction calls with
  | nil =>
    intro pre
    rw [runAnalyzer_nil]
    simp
  | cons c rest ih =>
    intro pre
    rw [runAnalyzer_cons, analyze_fst, takeLast_append_takeLast,
      ih (pre ++ [Fairness.mkSample c])]
    simp

lemma runAuditor_nil (hist : List BiasAuditorMod.BSample) :
    BiasAuditorMod.runAuditor hist [] = hist := rfl

lemma runAuditor_cons (hist : List BiasAuditorMod.BSample)
    (c : BiasAuditorMod.SessionContext × ℚ) (rest : List (BiasAuditorMod.SessionContext × ℚ)) :
    BiasAuditorMod.runAuditor hist (c :: rest) =
      BiasAuditorMod.runAuditor (BiasAuditorMod.audit hist c.1 c.2).1 rest := rfl

lemma audit_fst (hist : List BiasAuditorMod.BSample) (ctx : BiasAuditorMod.SessionContext)
    (ov : ℚ) :
    (BiasAuditorMod.audit hist ctx ov).1 =
      if BiasAuditorMod.flagged_sensitive ctx = [] then hist
      else takeLast 500 (hist ++ [⟨ov, BiasAuditorMod.flagged_sensitive ctx⟩]) := by
  unfold BiasAuditorMod.audit
  split_ifs with hs <;> rfl

lemma runAuditor_shift (calls : List (BiasAuditorMod.SessionContext × ℚ)) :
    ∀ pre : List BiasAuditorMod.BSample,
      BiasAuditorMod.runAuditor (takeLast 500 pre) calls =
        takeLast 500 (pre ++ (calls.filter BiasAuditorMod.hasSensitive).map
          BiasAuditorMod.mkBSample) := by
  induction calls with
  | nil =>
    intro pre
    rw [runAuditor_nil]
    simp
  | cons c rest ih =>
    intro pre
    rw [runAuditor_cons, audit_fst]
    by_cases hs : BiasAuditorMod.flagged_sensitive c.1 = []
    · have h2 : BiasAuditorMod.hasSensitive c = false := by
        unfold BiasAuditorMod.hasSensitive
        rw [hs]
        rfl
      rw [if_pos hs, ih pre, List.filter_cons, h2]
      simp
    · have h2 : BiasAuditorMod.hasSensitive c = true := by
        unfold BiasAuditorMod.hasSensitive
        simp [hs]
      rw [if_neg hs,
        show ({ overall := c.2, sensitive := BiasAuditorMod.flagged_sensitive c.1 } :
          BiasAuditorMod.BSample) = BiasAuditorMod.mkBSample c from rfl,
        takeLast_append_takeLast, ih (pre ++ [BiasAuditorMod.mkBSample c]),
        List.filter_cons, h2]
      simp

/-- C7: starting from an empty history, the neutral analyzer's history after
any call sequence is exactly the last 1000 of all appended samples (hence at
most 1000 long and FIFO-evicted), the bias auditor's history is exactly the
last 500 of the samples of those calls whose context carries a sensitive key
with a non-`None` value (hence at most 500 long and FIFO-evicted), and a
single `audit` call appends to the history if and only if such a key is
present. -/
theorem c7_auditor_histories :
    (∀ calls : List Fairness.FInput,
      (Fairness.runAnalyzer [] calls).length ≤ 1000 ∧
        Fairness.runAnalyzer [] calls = takeLast 1000 (calls.map Fairness.mkSample)) ∧
    (∀ calls : List (BiasAuditorMod.SessionContext × ℚ),
      (BiasAuditorMod.runAuditor [] calls).length ≤ 500 ∧
        BiasAuditorMod.runAuditor [] calls =
          takeLast 500 ((calls.filter BiasAuditorMod.hasSensitive).map
            BiasAuditorMod.mkBSample)) ∧
    (∀ (hist : List BiasAuditorMod.BSample) (ctx : BiasAuditorMod.SessionContext) (ov : ℚ),
      (BiasAuditorMod.audit hist ctx ov).1 =
        if BiasAuditorMod.flagged_sensitive ctx = [] then hist
        else takeLast 500 (hist ++ [⟨ov, BiasAuditorMod.flagged_sensitive ctx⟩])) := by
  refine ⟨fun calls => ?_, fun calls => ?_, fun hist ctx ov => ?_⟩
  · have h := runAnalyzer_shift calls []
    rw [takeLast_nil] at h
    simp only [List.nil_append] at h
    exact ⟨h ▸ takeLast_length_le 1000 _, h⟩
  · have h := runAuditor_shift calls []
    rw [takeLast_nil] at h
    simp only [List.nil_append] at h
    exact ⟨h ▸ takeLast_length_le 500 _, h⟩
  · exact audit_fst hist ctx ov

/-! ## C6 — neutral-feature warning condition -/

lemma mem_analyzeWarnings (h : List Fairness.FSample) (g s : String) :
    (g, s) ∈ Fairness.analyzeWarnings h ↔
      g ∈ Fairness.groupKeys ∧ s ∈ Fairness.scoreKeys ∧
        Fairness.warnCond h g s = true := by
  unfold Fairness.analyzeWarnings
  simp only [List.mem_flatMap, List.mem_map, List.mem_filter, Prod.mk.injEq]
  constructor
  · rintro ⟨g', hg', s', ⟨hs', hw⟩, rfl, rfl⟩
    exact ⟨hg', hs', hw⟩
  · rintro ⟨hg, hs, hw⟩
    exact ⟨g, hg, s, ⟨hs, hw⟩, rfl, rfl⟩

lemma analyze_snd (hist : List Fairness.FSample) (inp : Fairness.FInput) :
    (Fairness.analyze hist inp).2 = Fairness.analyzeWarnings (Fairness.analyze hist inp).1 :=
  rfl

lemma mem_analyze_warnings (hist : List Fairness.FSample) (inp : Fairness.FInput)
    (g s : String) :
    (g, s) ∈ (Fairness.analyze hist inp).2 ↔
      g ∈ Fairness.groupKeys ∧ s ∈ Fairness.scoreKeys ∧
        Fairness.warnCond (Fairness.analyze hist inp).1 g s = true := by
  rw [analyze_snd, mem_analyzeWarnings]

lemma dedupFirst_all_eq (b : String) :
    ∀ (xs : List String) (acc : List String), (∀ x ∈ xs, x = b) →
      (acc = [] ∨ acc = [b]) →
      (xs.foldl (fun acc g => if g ∈ acc then acc else acc ++ [g]) acc = [] ∨
        xs.foldl (fun acc g => if g ∈ acc then acc else acc ++ [g]) acc = [b]) := by
  intro xs
  induction xs with
  | nil => intro acc _ hacc; exact hacc
  | cons x xs ih =>
    intro acc hall hacc
    have hx : x = b := hall x (List.mem_cons_self x xs)
    have hrest : ∀ y ∈ xs, y = b := fun y hy => hall y (List.mem_cons_of_mem x hy)
    refine ih _ hrest ?_
    subst hx
    rcases hacc with rfl | rfl
    · right
      simp
    · right
      simp

lemma buckets_length_le_one (h : List Fairness.FSample) (g b : String)
    (hb : ∀ r ∈ h, Fairness.bandGet g r = b) :
    (Fairness.buckets h g).length ≤ 1 := by
  have := dedupFirst_all_eq b (h.map (Fairness.bandGet g)) []
    (by
      intro x hx
      obtain ⟨r, hr, rfl⟩ := List.mem_map.mp hx
      exact hb r hr)
    (Or.inl rfl)
  unfold Fairness.buckets dedupFirst
  rcases this with hh | hh <;> rw [hh] <;> simp

lemma no_warning_single_bucket (hist : List Fairness.FSample) (inp : Fairness.FInput)
    (g b s : String) (hhist : ∀ r ∈ hist, Fairness.bandGet g r = b)
    (hinp : Fairness.bandGet g (Fairness.mkSample inp) = b) :
    (g, s) ∉ (Fairness.analyze hist inp).2 := by
  intro hmem
  obtain ⟨-, -, hw⟩ := (mem_analyze_warnings hist inp g s).mp hmem
  have hrows : ∀ r ∈ (Fairness.analyze hist inp).1, Fairness.bandGet g r = b := by
    intro r hr
    rw [analyze_fst] at hr
    have hr' : r ∈ hist ++ [Fairness.mkSample inp] := List.drop_subset _ _ hr
    rcases List.mem_append.mp hr' with hr'' | hr''
    · exact hhist r hr''
    · rw [List.mem_singleton.mp hr'']
      exact hinp
  have hle := buckets_length_le_one _ g b hrows
  unfold Fairness.warnCond at hw
  simp only [Bool.and_eq_true, decide_eq_true_eq] at hw
  omega

set_option maxHeartbeats 1600000 in
/-- C6: (a) a warning for a pair `(band, score)` is emitted by `analyze` if
and only if, over the entire retained history after appending the current
sample, that band has at least 2 populated buckets, the spread of the
per-bucket means of that score exceeds 18, and the history holds at least 15
samples; (b) a run of calls (from a fresh analyzer) whose samples all fall in
one single bucket of a band never produces a warning for that band — in
particular 20 samples in a single bucket never warn. -/
theorem c6_neutral_warnings :
    (∀ (hist : List Fairness.FSample) (inp : Fairness.FInput) (g s : String),
      (g, s) ∈ (Fairness.analyze hist inp).2 ↔
        g ∈ Fairness.groupKeys ∧ s ∈ Fairness.scoreKeys ∧
          2 ≤ (Fairness.buckets (Fairness.analyze hist inp).1 g).length ∧
          18 < Fairness.spread (Fairness.analyze hist inp).1 g s ∧
          15 ≤ (Fairness.analyze hist inp).1.length) ∧
    (∀ (g b : String) (calls : List Fairness.FInput),
      (∀ inp ∈ calls, Fairness.bandGet g (Fairness.mkSample inp) = b) →
      ∀ ws ∈ Fairness.runWarnings [] calls, ∀ s, (g, s) ∉ ws) := by
  constructor
  · intro hist inp g s
    rw [mem_analyze_warnings]
    unfold Fairness.warnCond
    simp only [Bool.and_eq_true, decide_eq_true_eq, and_assoc]
  · intro g b calls hband ws hws s
    obtain ⟨i, hi, rfl⟩ := List.mem_map.mp hws
    have hi' : i < calls.length := List.mem_range.mp hi
    apply no_warning_single_bucket
    · intro r hr
      have h0 : Fairness.runAnalyzer [] (calls.take i) =
          takeLast 1000 ((calls.take i).map Fairness.mkSample) := by
        have := runAnalyzer_shift (calls.take i) []
        rw [takeLast_nil] at this
        simpa using this
      rw [h0] at hr
      have hr' : r ∈ (calls.take i).map Fairness.mkSample := List.drop_subset _ _ hr
      obtain ⟨inp, hinp, rfl⟩ := List.mem_map.mp hr'
      exact hband inp (List.take_subset _ _ hinp)
    · rw [List.getD_eq_getElem _ _ hi']
      exact hband _ (List.getElem_mem _)

/-- A concrete analyzer input whose eye-contact band is `high_eye_contact`. -/
def c6_witness_input : Fairness.FInput :=
  ⟨⟨40, 40, 40, 40⟩, ⟨0, 0.9, 0, 0⟩, ⟨0, 0, 0, 0⟩, []⟩

/-- C6 witness: a run of two samples in the single bucket
`high_eye_contact` produces no `(eyeContactBand, engagement)` warning on its
first call. -/
theorem c6_witness :
    ("eyeContactBand", "engagement") ∉ (Fairness.analyze [] c6_witness_input).2 := by
  have hband : ∀ inp ∈ [c6_witness_input, c6_witness_input],
      Fairness.bandGet "eyeContactBand" (Fairness.mkSample inp) = "high_eye_contact" := by
    intro inp hinp
    have hval : Fairness.bandGet "eyeContactBand" (Fairness.mkSample c6_witness_input) =
        "high_eye_contact" := by
      show Fairness.band_eye_contact (0.9 : ℚ) = "high_eye_contact"
      norm_num [Fairness.band_eye_contact]
    rcases List.mem_cons.mp hinp with rfl | hinp
    · exact hval
    · rcases List.mem_singleton.mp hinp with rfl
      exact hval
  exact c6_neutral_warnings.2 "eyeContactBand" "high_eye_contact"
    [c6_witness_input, c6_witness_input] hband
    (Fairness.analyze [] c6_witness_input).2
    (List.mem_map.mpr ⟨0, List.mem_range.mpr (by norm_num), rfl⟩) "engagement"

/-! ## C2 / C3 — window grid of the fusion loop -/

lemma le_foldl_max : ∀ (l : List ℚ) (x : ℚ), x ≤ l.foldl max x := by
  intro l
  induction l with
  | nil => intro x; exact le_rfl
  | cons y l ih =>
    intro x
    exact le_trans (le_max_left x y) (ih (max x y))

lemma max_time_nonneg (v : List VideoFrame) (a : List AudioSegment) (t : List TextSegment) :
    0 ≤ MultimodalFusion.max_time v a t := by
  unfold MultimodalFusion.max_time
  rw [List.cons_append, List.cons_append]
  exact le_foldl_max _ 0

lemma roundTo_zero (p : ℕ) : roundTo p 0 = 0 := by
  have := roundTo_eq_self_of_intMul p 0 0 (by norm_num)
  simpa using this

lemma roundTo_intCast (p : ℕ) (n : ℤ) : roundTo p (n : ℚ) = n := by
  refine roundTo_eq_self_of_intMul p _ (n * 10 ^ p) ?_
  push_cast
  ring

/-- Number of windows the loop emits from a given cursor. -/
def numWin (maxT w cursor : ℚ) : ℕ :=
  if cursor ≤ maxT then ⌊(maxT - cursor) / w⌋.toNat + 1 else 0

lemma numWin_step (maxT w cursor : ℚ) (hw : 0 < w) (hc : cursor ≤ maxT) :
    numWin maxT w cursor = numWin maxT w (cursor + w) + 1 := by
  unfold numWin
  rw [if_pos hc]
  by_cases hc2 : cursor + w ≤ maxT
  · rw [if_pos hc2]
    have h1 : (maxT - (cursor + w)) / w = (maxT - cursor) / w - 1 := by
      field_simp
      ring
    have h2 : ⌊(maxT - (cursor + w)) / w⌋ = ⌊(maxT - cursor) / w⌋ - 1 := by
      rw [h1]
      exact_mod_cast Int.floor_sub_int ((maxT - cursor) / w) 1
    have h3 : (0 : ℤ) ≤ ⌊(maxT - (cursor + w)) / w⌋ :=
      Int.floor_nonneg.mpr (div_nonneg (by linarith) hw.le)
    omega
  · rw [if_neg hc2]
    have h0 : (0 : ℚ) ≤ (maxT - cursor) / w := div_nonneg (by linarith) hw.le
    have h1 : (maxT - cursor) / w < 1 := by
      rw [div_lt_one hw]
      linarith
    have h2 : ⌊(maxT - cursor) / w⌋ = 0 := by
      rw [Int.floor_eq_zero_iff]
      exact ⟨h0, h1⟩
    rw [h2]
    rfl

lemma fuse_loop_closed (v : List VideoFrame) (a : List AudioSegment) (t : List TextSegment)
    (w maxT : ℚ) (hw : 0 < w) :
    ∀ (n : ℕ) (cursor : ℚ), (maxT - cursor) / w < n →
      MultimodalFusion.fuse_loop v a t w maxT n cursor =
        (List.range (numWin maxT w cursor)).map
          (fun (k : ℕ) => MultimodalFusion.window_at v a t (cursor + (k : ℚ) * w) w) := by
  intro n
  induction n with
  | zero =>
    intro cursor h
    have hc : ¬ cursor ≤ maxT := by
      intro hc
      have : (0 : ℚ) ≤ (maxT - cursor) / w := div_nonneg (by linarith) hw.le
      push_cast at h
      linarith
    unfold numWin
    rw [if_neg hc]
    rfl
  | succ n ih =>
    intro cursor h
    by_cases hc : cursor ≤ maxT
    · show (if cursor ≤ maxT then
          MultimodalFusion.window_at v a t cursor w ::
            MultimodalFusion.fuse_loop v a t w maxT n (cursor + w)
        else []) = _
      rw [if_pos hc, numWin_step maxT w cursor hw hc, List.range_succ_eq_map,
        List.map_cons, List.map_map]
      have hnext : (maxT - (cursor + w)) / w < n := by
        have h1 : (maxT - (cursor + w)) / w = (maxT - cursor) / w - 1 := by
          field_simp
          ring
        push_cast at h
        rw [h1]
        linarith
      rw [ih (cursor + w) hnext]
      congr 1
      · congr 1
        norm_num
      · apply List.map_congr_left
        intro k _
        show MultimodalFusion.window_at v a t (cursor + w + (k : ℚ) * w) w =
          MultimodalFusion.window_at v a t (cursor + ((Nat.succ k : ℕ) : ℚ) * w) w
        congr 1
        push_cast
        ring
    · show (if cursor ≤ maxT then _ else []) = _
      unfold numWin
      rw [if_neg hc, if_neg hc]
      rfl

lemma fuse_windows_closed (v : List VideoFrame) (a : List AudioSegment)
    (t : List TextSegment) (wss : ℚ) :
    MultimodalFusion.fuse_multimodal_features v a t wss =
      (List.range (⌊MultimodalFusion.max_time v a t / max 0.5 wss⌋.toNat + 1)).map
        (fun (k : ℕ) =>
          MultimodalFusion.window_at v a t ((k : ℚ) * max 0.5 wss) (max 0.5 wss)) := by
  have hw : (0 : ℚ) < max 0.5 wss := lt_of_lt_of_le (by norm_num) (le_max_left _ _)
  have hmt := max_time_nonneg v a t
  have hfl : (0 : ℤ) ≤ ⌊MultimodalFusion.max_time v a t / max 0.5 wss⌋ :=
    Int.floor_nonneg.mpr (div_nonneg hmt hw.le)
  have hcast : ((⌊MultimodalFusion.max_time v a t / max 0.5 wss⌋.toNat : ℕ) : ℚ) =
      ((⌊MultimodalFusion.max_time v a t / max 0.5 wss⌋ : ℤ) : ℚ) := by
    exact_mod_cast congrArg (fun z : ℤ => (z : ℚ)) (Int.toNat_of_nonneg hfl)
  have hbound : (MultimodalFusion.max_time v a t - 0) / max 0.5 wss <
      ((⌊MultimodalFusion.max_time v a t / max 0.5 wss⌋.toNat + 1 : ℕ) : ℚ) := by
    rw [sub_zero]
    push_cast
    rw [hcast]
    exact Int.lt_floor_add_one _
  unfold MultimodalFusion.fuse_multimodal_features
  rw [fuse_loop_closed v a t (max 0.5 wss) (MultimodalFusion.max_time v a t) hw
    (⌊MultimodalFusion.max_time v a t / max 0.5 wss⌋.toNat + 1) 0 hbound]
  unfold numWin
  rw [if_pos hmt, sub_zero]
  apply List.map_congr_left
  intro k _
  congr 1
  ring

lemma map_range_getD (f : ℕ → FusedWindow) (N k : ℕ) (hk : k < N) (dfl : FusedWindow) :
    ((List.range N).map f).getD k dfl = f k := by
  rw [List.getD_eq_getElem _ _ (by simpa using hk)]
  simp

/-- Default used only for out-of-range `getD` reads in theorem statements. -/
def defaultWindow : FusedWindow := ⟨0, 0, [], ⟨0, 0, 0⟩, "", ⟨0, 0, 0, 0⟩, ⟨0, 0, 0⟩, []⟩

lemma window_at_startTime (v : List VideoFrame) (a : List AudioSegment)
    (t : List TextSegment) (c w : ℚ) :
    (MultimodalFusion.window_at v a t c w).startTime = roundTo 3 c := rfl

lemma window_at_endTime (v : List VideoFrame) (a : List AudioSegment)
    (t : List TextSegment) (c w : ℚ) :
    (MultimodalFusion.window_at v a t c w).endTime = roundTo 3 (c + w) := rfl

/-- C2 (amended): with `w` the clamped window size and
`N = ⌊maxTimestamp/w⌋ + 1`, the loop emits exactly `N` windows; window `k` is
the aggregate at cursor `k·w`, with STORED bounds the 3-decimal roundings of
`k·w` and `(k+1)·w` (Python `round(…, 3)`); the first startTime is 0 and each
window's startTime equals the previous window's endTime; the unrounded grid
covers `[0, maxTimestamp]` with no gaps or overlaps (`maxTimestamp < N·w` and
every point of `[0, maxTimestamp]` lies in exactly the `k`-th cell it
determines); and `endTime - startTime = w` holds whenever `w` is an integer
multiple of 0.001 — not for arbitrary window sizes, because the stored bounds
are rounded. -/
theorem c2_window_grid (v : List VideoFrame) (a : List AudioSegment)
    (t : List TextSegment) (wss : ℚ) :
    let w := max 0.5 wss
    let maxT := MultimodalFusion.max_time v a t
    let ws := MultimodalFusion.fuse_multimodal_features v a t wss
    let N := ⌊maxT / w⌋.toNat + 1
    ws.length = N ∧
    (∀ k : ℕ, k < N →
      ws.getD k defaultWindow = MultimodalFusion.window_at v a t ((k : ℚ) * w) w ∧
      (ws.getD k defaultWindow).startTime = roundTo 3 ((k : ℚ) * w) ∧
      (ws.getD k defaultWindow).endTime = roundTo 3 (((k : ℚ) + 1) * w)) ∧
    (ws.getD 0 defaultWindow).startTime = 0 ∧
    (∀ k : ℕ, k + 1 < N →
      (ws.getD (k + 1) defaultWindow).startTime = (ws.getD k defaultWindow).endTime) ∧
    maxT < (N : ℚ) * w ∧
    (∀ x : ℚ, 0 ≤ x → x ≤ maxT →
      ∃ k : ℕ, k < N ∧ (k : ℚ) * w ≤ x ∧ x < ((k : ℚ) + 1) * w) ∧
    (∀ m : ℤ, w * 1000 = (m : ℚ) → ∀ k : ℕ, k < N →
      (ws.getD k defaultWindow).endTime - (ws.getD k defaultWindow).startTime = w) := by
  intro w maxT ws N
  have hw : (0 : ℚ) < w := lt_of_lt_of_le (by norm_num) (le_max_left _ _)
  have hmt : 0 ≤ maxT := max_time_nonneg v a t
  have hfl : (0 : ℤ) ≤ ⌊maxT / w⌋ := Int.floor_nonneg.mpr (div_nonneg hmt hw.le)
  have hcast : ((⌊maxT / w⌋.toNat : ℕ) : ℚ) = ((⌊maxT / w⌋ : ℤ) : ℚ) :=
    mod_cast congrArg (fun z : ℤ => (z : ℚ)) (Int.toNat_of_nonneg hfl)
  have hws : ws = (List.range N).map
      (fun (k : ℕ) => MultimodalFusion.window_at v a t ((k : ℚ) * w) w) :=
    fuse_windows_closed v a t wss
  have hget : ∀ k : ℕ, k < N →
      ws.getD k defaultWindow = MultimodalFusion.window_at v a t ((k : ℚ) * w) w := by
    intro k hk
    rw [hws, map_range_getD _ _ _ hk]
  have hget3 : ∀ k : ℕ, k < N →
      ws.getD k defaultWindow = MultimodalFusion.window_at v a t ((k : ℚ) * w) w ∧
      (ws.getD k defaultWindow).startTime = roundTo 3 ((k : ℚ) * w) ∧
      (ws.getD k defaultWindow).endTime = roundTo 3 (((k : ℚ) + 1) * w) := by
    intro k hk
    refine ⟨hget k hk, ?_, ?_⟩
    · rw [hget k hk, window_at_startTime]
    · rw [hget k hk, window_at_endTime]
      congr 1
      ring
  have hN0 : 0 < N := Nat.succ_pos _
  refine ⟨?_, hget3, ?_, ?_, ?_, ?_, ?_⟩
  · rw [hws]
    simp
  · rw [(hget3 0 hN0).2.1]
    norm_num [roundTo_zero]
  · intro k hk
    rw [(hget3 (k + 1) hk).2.1, (hget3 k (by omega)).2.2]
    congr 1
    push_cast
    ring
  · have h1 : maxT / w < (N : ℚ) := by
      push_cast
      rw [hcast]
      exact Int.lt_floor_add_one _
    calc maxT = maxT / w * w := by field_simp
      _ < (N : ℚ) * w := by
        apply mul_lt_mul_of_pos_right h1 hw
  · intro x hx0 hxle
    refine ⟨⌊x / w⌋.toNat, ?_, ?_, ?_⟩
    · have hxf : ⌊x / w⌋ ≤ ⌊maxT / w⌋ :=
        Int.floor_le_floor (by gcongr)
      omega
    · have h0 : (0 : ℤ) ≤ ⌊x / w⌋ := Int.floor_nonneg.mpr (div_nonneg hx0 hw.le)
      have hc : ((⌊x / w⌋.toNat : ℕ) : ℚ) = ((⌊x / w⌋ : ℤ) : ℚ) :=
        mod_cast congrArg (fun z : ℤ => (z : ℚ)) (Int.toNat_of_nonneg h0)
      rw [hc, ← le_div_iff₀ hw]
      exact Int.floor_le _
    · have h0 : (0 : ℤ) ≤ ⌊x / w⌋ := Int.floor_nonneg.mpr (div_nonneg hx0 hw.le)
      have hc : ((⌊x / w⌋.toNat : ℕ) : ℚ) = ((⌊x / w⌋ : ℤ) : ℚ) :=
        mod_cast congrArg (fun z : ℤ => (z : ℚ)) (Int.toNat_of_nonneg h0)
      rw [hc, ← div_lt_iff₀ hw]
      exact Int.lt_floor_add_one _
  · intro m hm k hk
    have hstart : roundTo 3 ((k : ℚ) * w) = (k : ℚ) * w := by
      refine roundTo_eq_self_of_intMul 3 _ ((k : ℤ) * m) ?_
      have : ((10 : ℚ)) ^ (3 : ℕ) = 1000 := by norm_num
      rw [this]
      push_cast
      calc (k : ℚ) * w * 1000 = (k : ℚ) * (w * 1000) := by ring
        _ = (k : ℚ) * (m : ℚ) := by rw [hm]
    have hend : roundTo 3 (((k : ℚ) + 1) * w) = ((k : ℚ) + 1) * w := by
      refine roundTo_eq_self_of_intMul 3 _ (((k : ℤ) + 1) * m) ?_
      have : ((10 : ℚ)) ^ (3 : ℕ) = 1000 := by norm_num
      rw [this]
      push_cast
      calc ((k : ℚ) + 1) * w * 1000 = ((k : ℚ) + 1) * (w * 1000) := by ring
        _ = ((k : ℚ) + 1) * (m : ℚ) := by rw [hm]
    rw [(hget3 k hk).2.1, (hget3 k hk).2.2, hstart, hend]
    ring

lemma roundTo3_05006 : roundTo 3 (0.5006 : ℚ) = 0.501 := by
  unfold roundTo roundHalfEven
  norm_num

/-- C2 counterexample: with empty streams and requested window size 0.5006
(after clamping still 0.5006 ≥ 0.5) the loop emits exactly one window, whose
stored width is `round(0.5006, 3) = 0.501 ≠ 0.5006` — the claim's
`endTime - startTime == windowSizeSeconds exactly` fails. -/
theorem c2_counterexample :
    (MultimodalFusion.fuse_multimodal_features [] [] [] 0.5006).length = 1 ∧
    ((MultimodalFusion.fuse_multimodal_features [] [] [] 0.5006).getD 0
        defaultWindow).endTime -
      ((MultimodalFusion.fuse_multimodal_features [] [] [] 0.5006).getD 0
        defaultWindow).startTime = 0.501 ∧
    max 0.5 (0.5006 : ℚ) = 0.5006 ∧ (0.501 : ℚ) ≠ 0.5006 := by
  have hw : max (0.5 : ℚ) 0.5006 = 0.5006 := by
    rw [max_def]
    norm_num
  have hmax : MultimodalFusion.max_time ([] : List VideoFrame) [] [] = 0 := rfl
  have hN : ⌊MultimodalFusion.max_time ([] : List VideoFrame) [] [] /
      max 0.5 (0.5006 : ℚ)⌋.toNat + 1 = 1 := by
    rw [hmax, hw]
    norm_num
  have hg : (MultimodalFusion.fuse_multimodal_features [] [] [] 0.5006).getD 0
      defaultWindow = MultimodalFusion.window_at [] [] [] ((0 : ℕ) * max 0.5 0.5006)
        (max 0.5 0.5006) := by
    rw [fuse_windows_closed]
    exact map_range_getD _ _ _ (Nat.succ_pos _) _
  refine ⟨?_, ?_, hw, by norm_num⟩
  · rw [fuse_windows_closed]
    simp only [List.length_map, List.length_range]
    exact hN
  · rw [hg, window_at_startTime, window_at_endTime, hw]
    have h1 : ((0 : ℕ) : ℚ) * (0.5006 : ℚ) = 0 := by norm_num
    rw [h1, zero_add, roundTo_zero, roundTo3_05006]
    norm_num

/-- C2 witness: the amended grid properties applied with window size 2 and
empty streams — the width equality holds there because 2 is a multiple of
0.001. -/
theorem c2_witness :
    ((MultimodalFusion.fuse_multimodal_features [] [] [] 2).getD 0
        defaultWindow).endTime -
      ((MultimodalFusion.fuse_multimodal_features [] [] [] 2).getD 0
        defaultWindow).startTime = max 0.5 (2 : ℚ) :=
  (c2_window_grid [] [] [] 2).2.2.2.2.2.2 2000
    (by rw [max_def]; norm_num) 0 (Nat.succ_pos _)

/-! ## C3 — empty-stream defaults -/

lemma roundTo_two : roundTo 3 (2 : ℚ) = 2 := by
  exact_mod_cast roundTo_intCast 3 2

lemma roundTo_one6 : roundTo 6 (1 : ℚ) = 1 := by
  exact_mod_cast roundTo_intCast 6 1

lemma mean_emotions_nil : MultimodalFusion.mean_emotions [] =
    [(("neutral" : String), (1 : ℚ))] := rfl

lemma window_at_empty_eval : MultimodalFusion.window_at [] [] [] 0 2 =
    ⟨0, 2, [(("neutral" : String), (1 : ℚ))], ⟨0, 0, 0⟩, "unknown", ⟨0, 0, 0, 0⟩,
      ⟨0, 0, 0⟩, [0, 1, 0, 0, 0, 0, 0, 0, 0, 0]⟩ := by
  unfold MultimodalFusion.window_at
  dsimp only
  congr 1
  · exact roundTo_zero 3
  · rw [zero_add]
    exact roundTo_two
  · show List.map (roundTo 6) [0, 1, 0, 0, 0, 0, 0, 0, 0, 0] = _
    simp [roundTo_zero, roundTo_one6]

/-- C3: with three empty streams and window size 2, the fusion returns
(totally, hence without raising) exactly one window `[0.0, 2.0)` carrying all
the documented defaults; and in general any window whose video slice is empty
takes facial `{neutral: 1.0}`, gaze `unknown` and an all-zero head pose, any
window whose audio slice is empty takes all-zero speech features, any window
whose text slice is empty takes all-zero text scores; every window the loop
emits is such an aggregate at some cursor. -/
theorem c3_empty_defaults :
    MultimodalFusion.fuse_multimodal_features [] [] [] 2 =
      [⟨0, 2, [(("neutral" : String), (1 : ℚ))], ⟨0, 0, 0⟩, "unknown", ⟨0, 0, 0, 0⟩,
        ⟨0, 0, 0⟩, [0, 1, 0, 0, 0, 0, 0, 0, 0, 0]⟩] ∧
    (∀ (v : List VideoFrame) (a : List AudioSegment) (t : List TextSegment) (c w : ℚ),
      (MultimodalFusion.video_slice v c (c + w) = [] →
        (MultimodalFusion.window_at v a t c w).facialEmotionScores =
          [(("neutral" : String), (1 : ℚ))] ∧
        (MultimodalFusion.window_at v a t c w).gazeDirection = "unknown" ∧
        (MultimodalFusion.window_at v a t c w).headPose = ⟨0, 0, 0⟩) ∧
      (MultimodalFusion.audio_slice a c (c + w) = [] →
        (MultimodalFusion.window_at v a t c w).speechFeatures = ⟨0, 0, 0, 0⟩) ∧
      (MultimodalFusion.text_slice t c (c + w) = [] →
        (MultimodalFusion.window_at v a t c w).textScores = ⟨0, 0, 0⟩)) ∧
    (∀ (v : List VideoFrame) (a : List AudioSegment) (t : List TextSegment) (wss : ℚ),
      ∀ win ∈ MultimodalFusion.fuse_multimodal_features v a t wss,
        ∃ c : ℚ, win = MultimodalFusion.window_at v a t c (max 0.5 wss)) := by
  refine ⟨?_, ?_, ?_⟩
  · have hw : max (0.5 : ℚ) 2 = 2 := by
      rw [max_def]
      norm_num
    have hN : ⌊MultimodalFusion.max_time ([] : List VideoFrame) [] [] /
        max 0.5 (2 : ℚ)⌋.toNat + 1 = 1 := by
      rw [show MultimodalFusion.max_time ([] : List VideoFrame) [] [] = 0 from rfl, hw]
      norm_num
    rw [fuse_windows_closed, hN, show List.range 1 = [0] from rfl]
    simp only [List.map_cons, List.map_nil]
    rw [hw, show ((0 : ℕ) : ℚ) * (2 : ℚ) = 0 by norm_num, window_at_empty_eval]
  · intro v a t c w
    refine ⟨fun hv => ?_, fun ha => ?_, fun ht => ?_⟩
    · refine ⟨?_, ?_, ?_⟩
      · show MultimodalFusion.mean_emotions (MultimodalFusion.video_slice v c (c + w)) = _
        rw [hv, mean_emotions_nil]
      · show MultimodalFusion.dominant_gaze (MultimodalFusion.video_slice v c (c + w)) = _
        rw [hv]
        rfl
      · show MultimodalFusion.mean_head_pose (MultimodalFusion.video_slice v c (c + w)) = _
        rw [hv]
        rfl
    · show MultimodalFusion.mean_speech (MultimodalFusion.audio_slice a c (c + w)) = _
      rw [ha]
      rfl
    · show MultimodalFusion.mean_text_scores (MultimodalFusion.text_slice t c (c + w)) = _
      rw [ht]
      rfl
  · intro v a t wss win hwin
    rw [fuse_windows_closed] at hwin
    obtain ⟨k, -, rfl⟩ := List.mem_map.mp hwin
    exact ⟨(k : ℚ) * max 0.5 wss, rfl⟩

/-- C3 witness: the per-stream defaults instantiated at concrete empty
slices. -/
theorem c3_witness :
    (MultimodalFusion.window_at [] [] [] 5 3).facialEmotionScores =
      [(("neutral" : String), (1 : ℚ))] ∧
    (MultimodalFusion.window_at [] [] [] 5 3).speechFeatures = ⟨0, 0, 0, 0⟩ ∧
    (MultimodalFusion.window_at [] [] [] 5 3).textScores = ⟨0, 0, 0⟩ :=
  ⟨((c3_empty_defaults.2.1 [] [] [] 5 3).1 rfl).1,
   (c3_empty_defaults.2.1 [] [] [] 5 3).2.1 rfl,
   (c3_empty_defaults.2.1 [] [] [] 5 3).2.2 rfl⟩
